import Mathlib

/-!
Verification of the gfxstream code-generation orchestration engine
(`src/codegen/vulkan/vulkan-docs/scripts/cerealgenerator.py`) and of the
registry-merge step of `src/codegen/vulkan/vulkan-docs/scripts/genvk.py`.

The embedding models `CerealGenerator` as a pure state machine.  Each
schema-walker callback (`beginFile`, `beginFeature`, `genType`, ...,
`endFeature`) becomes a function `GenState → ... → GenState` translated
statement by statement from the Python source.  Points where the source
delegates to the out-of-scope `cereal` package (the concrete wrapper
emitters and the `VulkanTypeInfo` registry) are modelled as an append-only
call log: a wrapper callback or a registry callback is recorded as a `Call`
value instead of executing arbitrary emitter code, which is exactly the
interface boundary drawn by the specification (§2, §4.2: a wrapper's only
externally visible effect is appending text to its bound module's buffers;
the emitters' payloads are out of scope).  Module buffers receive exactly
the text the orchestrator itself appends (the `#ifdef`/`#endif` feature
guards); the preamble/postamble literals are configuration text with no
bearing on any claim and are not modelled.
-/

namespace Gfxstream

/-- The runtime types (Python classes) of the wrapper emitters registered by
`CerealGenerator.__init__`; used by `forEachWrapper` to test membership in a
feature's restriction set via `type(wrapper) in supportedWrappers`. -/
inductive WrapperKind where
  | vulkanEncoder
  | vulkanExtensionStructs
  | vulkanMarshaling
  | vulkanReservedMarshaling
  | vulkanDeepcopy
  | vulkanCounting
  | vulkanTransform
  | vulkanFuncTable
  | vulkanHandleMap
  | vulkanDispatch
  | vulkanDecoder
  | vulkanDecoderSnapshot
  | vulkanSubDecoder
  | apiLogDecoder
  | vulkanGfxstreamStructureType
  | vulkanAndroidNativeBufferStructureType
  deriving DecidableEq, Repr

/-- `SUPPORTED_FEATURES` from cerealgenerator.py lines 30-125, transcribed
verbatim (including the duplicated `VK_KHR_sampler_ycbcr_conversion`). -/
def SUPPORTED_FEATURES : List String := [
  "VK_VERSION_1_0",
  "VK_VERSION_1_1",
  "VK_VERSION_1_2",
  "VK_VERSION_1_3",
  "VK_KHR_get_physical_device_properties2",
  "VK_KHR_sampler_ycbcr_conversion",
  "VK_KHR_external_semaphore_capabilities",
  "VK_KHR_external_memory_capabilities",
  "VK_KHR_external_fence_capabilities",
  "VK_KHR_storage_buffer_storage_class",
  "VK_KHR_vulkan_memory_model",
  "VK_KHR_buffer_device_address",
  "VK_KHR_maintenance1",
  "VK_KHR_maintenance2",
  "VK_KHR_maintenance3",
  "VK_KHR_bind_memory2",
  "VK_KHR_dedicated_allocation",
  "VK_KHR_get_memory_requirements2",
  "VK_KHR_sampler_ycbcr_conversion",
  "VK_KHR_shader_float16_int8",
  "VK_AMD_gpu_shader_half_float",
  "VK_NV_shader_subgroup_partitioned",
  "VK_KHR_shader_subgroup_extended_types",
  "VK_EXT_provoking_vertex",
  "VK_EXT_line_rasterization",
  "VK_EXT_transform_feedback",
  "VK_EXT_primitive_topology_list_restart",
  "VK_EXT_index_type_uint8",
  "VK_EXT_load_store_op_none",
  "VK_EXT_swapchain_colorspace",
  "VK_EXT_custom_border_color",
  "VK_EXT_shader_stencil_export",
  "VK_KHR_image_format_list",
  "VK_KHR_incremental_present",
  "VK_KHR_pipeline_executable_properties",
  "VK_EXT_queue_family_foreign",
  "VK_KHR_external_semaphore",
  "VK_KHR_external_semaphore_fd",
  "VK_KHR_external_memory",
  "VK_KHR_external_fence",
  "VK_KHR_external_fence_fd",
  "VK_EXT_device_memory_report",
  "VK_KHR_create_renderpass2",
  "VK_KHR_imageless_framebuffer",
  "VK_KHR_descriptor_update_template",
  "VK_EXT_swapchain_maintenance1",
  "VK_EXT_image_compression_control",
  "VK_EXT_image_compression_control_swapchain",
  "VK_KHR_copy_commands2",
  "VK_KHR_dynamic_rendering",
  "VK_KHR_format_feature_flags2",
  "VK_KHR_maintenance4",
  "VK_KHR_shader_integer_dot_product",
  "VK_KHR_shader_non_semantic_info",
  "VK_KHR_shader_terminate_invocation",
  "VK_KHR_synchronization2",
  "VK_KHR_zero_initialize_workgroup_memory",
  "VK_EXT_4444_formats",
  "VK_EXT_extended_dynamic_state",
  "VK_EXT_extended_dynamic_state2",
  "VK_EXT_image_robustness",
  "VK_EXT_inline_uniform_block",
  "VK_EXT_pipeline_creation_cache_control",
  "VK_EXT_pipeline_creation_feedback",
  "VK_EXT_private_data",
  "VK_EXT_shader_demote_to_helper_invocation",
  "VK_EXT_subgroup_size_control",
  "VK_EXT_texel_buffer_alignment",
  "VK_EXT_texture_compression_astc_hdr",
  "VK_EXT_tooling_info",
  "VK_EXT_ycbcr_2plane_444_formats",
  "VK_EXT_debug_utils",
  "VK_KHR_surface",
  "VK_KHR_swapchain",
  "VK_KHR_xcb_surface",
  "VK_KHR_win32_surface",
  "VK_EXT_metal_surface",
  "VK_MVK_moltenvk",
  "VK_KHR_external_semaphore_win32",
  "VK_KHR_external_memory_win32",
  "VK_KHR_external_memory_fd",
  "VK_ANDROID_native_buffer",
  "VK_ANDROID_external_memory_android_hardware_buffer",
  "VK_KHR_android_surface",
  "VK_GOOGLE_gfxstream",
  "VK_EXT_graphics_pipeline_library"]

/-- `SUPPORTED_WRAPPERS` from cerealgenerator.py lines 130-144: the optional
feature-name → wrapper-kind restriction map (a Python dict; `dict.get`
becomes `List.lookup`). -/
def SUPPORTED_WRAPPERS : List (String × List WrapperKind) := [
  ("VK_EXT_debug_utils", [WrapperKind.vulkanDispatch]),
  ("VK_KHR_surface", [WrapperKind.vulkanDispatch]),
  ("VK_KHR_xcb_surface", [WrapperKind.vulkanDispatch]),
  ("VK_KHR_win32_surface", [WrapperKind.vulkanDispatch]),
  ("VK_EXT_metal_surface", [WrapperKind.vulkanDispatch]),
  ("VK_MVK_moltenvk", [WrapperKind.vulkanDispatch]),
  ("VK_KHR_external_semaphore_win32", [WrapperKind.vulkanDispatch]),
  ("VK_KHR_external_memory_win32", [WrapperKind.vulkanDispatch]),
  ("VK_KHR_external_memory_fd", [WrapperKind.vulkanDispatch]),
  ("VK_ANDROID_external_memory_android_hardware_buffer", [WrapperKind.vulkanFuncTable]),
  ("VK_KHR_android_surface", [WrapperKind.vulkanFuncTable])]

/-- One output module (`cereal.Module` / `cereal.PyScript` instance).  The
buffers hold the chunks appended in order; `isCerealModule` is the
`isinstance(m, cereal.Module)` test used by the guard-emission lambdas
(false exactly for the `PyScript` module `ApiLogDecoder`). -/
structure Module where
  directory : String
  basename : String
  headerBuf : List String := []
  implBuf : List String := []
  suppress : Bool := false
  suppressFeatureGuards : Bool := false
  headerOnly : Bool := false
  implOnly : Bool := false
  isCerealModule : Bool := true
  deriving DecidableEq, Repr

/-- Modelled from the spec: `Module.appendHeader` lives in
`cereal/common/codegen.py`, which is not under `src/`.  Spec §4.1: append
"appends to header or impl buffer; no-op (silently ignored) if the module is
suppressed.  Never fails otherwise." -/
def Module.appendHeader (m : Module) (s : String) : Module :=
  if m.suppress then m else { m with headerBuf := m.headerBuf ++ [s] }

/-- Modelled from the spec: impl-buffer counterpart of `Module.appendHeader`
(spec §4.1), for the same missing `cereal/common/codegen.py`. -/
def Module.appendImpl (m : Module) (s : String) : Module :=
  if m.suppress then m else { m with implBuf := m.implBuf ++ [s] }

/-- Modelled from the spec: `Module.end` (finalize) lives in the missing
`cereal/common/codegen.py`.  Spec §4.1/§3: "finalize(outputDir): if
suppressed, no effect", a suppressed module is "excluded from file
emission"; otherwise the header and impl buffers are written out.  The value
is the pair of buffers a non-suppressed module persists (`none` = zero bytes
written). -/
def Module.emitOutput (m : Module) : Option (List String × List String) :=
  if m.suppress then none else some (m.headerBuf, m.implBuf)

/-- Modelled from the spec: `getMakefileSrcEntry` / `getCMakeSrcEntry` live
in the missing `cereal/common/codegen.py`.  Spec §4.1 (`buildFragmentEntry`
returns the implementation path to register), §3 (a suppressed module "is
excluded ... from build-fragment aggregation") and §6 (the fragments list
"every emitted implementation file path", so a header-only module, which
emits no implementation file, contributes nothing). -/
def Module.srcEntry (m : Module) : Option String :=
  if m.suppress || m.headerOnly then none else some (m.basename ++ ".cpp")

/-- A registered wrapper emitter: its runtime type and the name of the one
module it is bound to (`moduleType(self.modules[moduleName], ...)` in
`addWrapper`). -/
structure Wrapper where
  kind : WrapperKind
  moduleName : String
  deriving DecidableEq, Repr

/-- Events forwarded to the `VulkanTypeInfo` registry (`self.typeInfo`).
The registry's own accumulation logic lives in the out-of-scope `cereal`
package; the embedding records which callbacks reach it, which is what the
claims quantify over. -/
inductive RegEvent where
  | beginFeature (name : String)
  | endFeature
  | genType (name : String)
  | genStruct (name : String)
  | genGroup (name : String)
  | genEnum (name : String)
  | genCmd (name : String)
  | onEnd
  deriving DecidableEq, Repr

/-- Callbacks delivered to a wrapper (the `Wrapper` contract of spec §4.2). -/
inductive WEvent where
  | onBegin
  | onEnd
  | onBeginFeature (name : String)
  | onEndFeature
  | onFeatureNewCmd (name : String)
  | onGenType (name : String)
  | onGenStruct (name : String)
  | onGenGroup (name : String)
  | onGenEnum (name : String)
  | onGenCmd (name : String)
  deriving DecidableEq, Repr

/-- One delivered callback, in global delivery order: either a TypeRegistry
callback or a callback to the wrapper at registration index `idx`. -/
inductive Call where
  | registry (e : RegEvent)
  | wrapper (idx : Nat) (kind : WrapperKind) (e : WEvent)
  deriving DecidableEq, Repr

/-- Registration index of a wrapper call (0 for registry calls; only used on
wrapper calls). -/
def callIdx : Call → Nat
  | Call.registry _ => 0
  | Call.wrapper i _ _ => i

/-- Diagnostics printed by the generator (the `print` calls in
`addGuestEncoderModule`, `addHostModule` and `addWrapper`), recorded
structurally. -/
inductive LogMsg where
  | guestPathSkip
  | hostPathSkip
  | unknownModule (moduleName : String) (known : List String)
  deriving DecidableEq, Repr

/-- The full `CerealGenerator` state.  `modules` is the module registry in
registration order (the Python object keeps `self.moduleList` plus the
`self.modules` dict; module names are unique here, so one ordered
association list represents both).  The three `...CppFiles` fields are the
build-fragment accumulators; the Python code concatenates entry strings,
modelled as the list of entries in order. -/
structure GenState where
  modules : List (String × Module) := []
  wrappers : List Wrapper := []
  featureSupported : Bool := false
  supportedWrappers : Option (List WrapperKind) := none
  calls : List Call := []
  log : List LogMsg := []
  suppressEnabled : Bool := false
  suppressExceptModule : Option String := none
  guestAndroidMkCppFiles : List String := []
  hostCMakeCppFiles : List String := []
  hostDecoderCMakeCppFiles : List String := []
  deriving DecidableEq, Repr

def GenState.moduleNames (s : GenState) : List String := s.modules.map (fun nm => nm.1)

/-- `init_suppress_option` (cerealgenerator.py lines 224-234): the
`ANDROID_EMU_VK_CEREAL_SUPPRESS` environment variable (here: an explicit
`Option String` parameter) enables suppression when present and non-empty.
Returns `(suppressEnabled, suppressExceptModule)`. -/
def initSuppress (o : Option String) : Bool × Option String :=
  match o with
  | none => (false, none)
  | some v => if v == "" then (false, none) else (true, some v)

/-- `forEachWrapper`'s body for one callback: deliver the event to every
wrapper from registration index `i` on, skipping wrappers whose type is not
in the restriction set when one is present (cerealgenerator.py lines
782-787). -/
def wrapperApplies (sw : Option (List WrapperKind)) (k : WrapperKind) : Bool :=
  match sw with
  | none => true
  | some l => l.contains k

def deliverFrom (i : Nat) (ws : List Wrapper) (sw : Option (List WrapperKind))
    (e : WEvent) : List Call :=
  match ws with
  | [] => []
  | w :: rest =>
    (if wrapperApplies sw w.kind then [Call.wrapper i w.kind e] else [])
      ++ deliverFrom (i + 1) rest sw e

/-- `forEachWrapper(lambda w: w.<callback>(...), supportedWrappers)`: the
calls delivered, in registration order starting at index 0. -/
def deliverAll (ws : List Wrapper) (sw : Option (List WrapperKind)) (e : WEvent) : List Call :=
  deliverFrom 0 ws sw e

/-- `addModule` (cerealgenerator.py lines 726-730). -/
def GenState.addModule (s : GenState) (moduleName : String) (m : Module) : GenState :=
  { s with modules := s.modules ++ [(moduleName, m)] }

/-- `addCppModule` (cerealgenerator.py lines 732-767), restricted to the
state the claims depend on: the preamble/postamble strings it assembles are
fixed configuration text and are not modelled.  `moduleName` defaults to
`basename` when absent (via `addModule`). -/
def GenState.addCppModule (s : GenState) (directory basename : String)
    (implOnly suppress headerOnly sFG : Bool) (moduleName : Option String) : GenState :=
  s.addModule (moduleName.getD basename)
    { directory := directory, basename := basename, suppress := suppress,
      implOnly := implOnly, headerOnly := headerOnly, suppressFeatureGuards := sFG,
      isCerealModule := true }

/-- `addGuestEncoderModule` (cerealgenerator.py lines 697-707): when the
guest encoder destination directory does not exist, print a skip diagnostic
and return without registering anything; otherwise register a cpp module
under the `guest_encoder` tag. -/
def GenState.addGuestEncoderModule (s : GenState) (guestDirExists : Bool)
    (basename : String) (headerOnly sFG : Bool) (moduleName : Option String) : GenState :=
  if !guestDirExists then
    { s with log := s.log ++ [LogMsg.guestPathSkip] }
  else
    s.addCppModule "guest_encoder" basename false false headerOnly sFG moduleName

/-- `addHostModule` (cerealgenerator.py lines 709-724): same skip behaviour
for the host decoder destination; registers under the `host` tag. -/
def GenState.addHostModule (s : GenState) (hostDirExists : Bool)
    (basename : String) (implOnly suppress headerOnly sFG : Bool)
    (moduleName : Option String) : GenState :=
  if !hostDirExists then
    { s with log := s.log ++ [LogMsg.hostPathSkip] }
  else
    s.addCppModule "host" basename implOnly suppress headerOnly sFG moduleName

/-- `addWrapper` (cerealgenerator.py lines 769-776): a wrapper naming an
unknown module is reported (`print`) and dropped; otherwise it is appended
to the wrapper registry. -/
def GenState.addWrapper (s : GenState) (k : WrapperKind) (moduleName : String) : GenState :=
  if !(s.moduleNames.contains moduleName) then
    { s with log := s.log ++ [LogMsg.unknownModule moduleName s.moduleNames] }
  else
    { s with wrappers := s.wrappers ++ [{ kind := k, moduleName := moduleName }] }

/-- The closure `addSrcEntry` (cerealgenerator.py lines 685-693): route one
module's build-fragment entry into the accumulator selected by its
directory tag (`guest_encoder` → Android.mk bucket, `host` → host-decoder
CMake bucket, anything else → the default CMake bucket). -/
def GenState.addSrcEntry (s : GenState) (m : Module) : GenState :=
  if m.directory == "guest_encoder" then
    { s with guestAndroidMkCppFiles := s.guestAndroidMkCppFiles ++ m.srcEntry.toList }
  else if m.directory == "host" then
    { s with hostDecoderCMakeCppFiles := s.hostDecoderCMakeCppFiles ++ m.srcEntry.toList }
  else
    { s with hostCMakeCppFiles := s.hostCMakeCppFiles ++ m.srcEntry.toList }

/-- `self.forEachModule(addSrcEntry)` at the end of `__init__`
(cerealgenerator.py line 695). -/
def GenState.aggregateSrcEntries (s : GenState) : GenState :=
  s.modules.foldl (fun acc nm => acc.addSrcEntry nm.2) s

/-- The feature-guard text appended by `beginFeature`. -/
def gOpen (f : String) : String := "#ifdef " ++ f ++ "\n"

/-- The feature-guard text appended by `endFeature`. -/
def gClose : String := "#endif\n"

/-- The per-module condition of the guard-emission lambdas:
`isinstance(m, cereal.Module) and not m.suppressFeatureGuards`. -/
def guardCond (m : Module) : Bool := m.isCerealModule && !m.suppressFeatureGuards

/-- `beginFile` (cerealgenerator.py lines 791-810): under suppression mode,
set every module's suppress flag and clear it on the designated module
(`self.modules[suppressExceptModule].suppress = False`; the Python raises
`KeyError` when the name is unregistered — the embedding is only used with a
registered name).  Then `onBegin()` goes to every wrapper with no
restriction filter.  The CMake text written to `self.outFile` in the
unsuppressed branch is not module state and is not modelled. -/
def GenState.beginFile (s : GenState) : GenState :=
  let s1 :=
    if s.suppressEnabled then
      let ms := s.modules.map (fun nm => (nm.1, { nm.2 with suppress := true }))
      { s with modules := ms.map (fun nm =>
          (nm.1, if (some nm.1) == s.suppressExceptModule
                 then { nm.2 with suppress := false } else nm.2)) }
    else s
  { s1 with calls := s1.calls ++ deliverAll s1.wrappers none WEvent.onBegin }

/-- `endFile` (cerealgenerator.py lines 812-818): `typeInfo.onEnd()`, then
`onEnd()` on every wrapper; `m.end()` finalizes each module (file
emission is modelled by `Module.emitOutput`, the buffers are not changed). -/
def GenState.endFile (s : GenState) : GenState :=
  { s with calls := s.calls ++ [Call.registry RegEvent.onEnd]
      ++ deliverAll s.wrappers none WEvent.onEnd }

/-- `beginFeature` (cerealgenerator.py lines 820-844).  The loop over
`SUPPORTED_FEATURES` sets `featureSupported` to true when the name is
listed and otherwise leaves it unchanged; an unsupported feature returns
early.  For a supported feature: cache the restriction set, notify the
TypeRegistry, append the guard-open line to every `cereal.Module` without
`suppressFeatureGuards` (header pass, then impl pass), fire
`onBeginFeature` on the restricted wrapper set, then `onFeatureNewCmd` for
every command under the feature's require blocks. -/
def GenState.beginFeature (s : GenState) (f : String) (requireCmds : List String) : GenState :=
  let fs := if SUPPORTED_FEATURES.contains f then true else s.featureSupported
  if fs = false then
    { s with featureSupported := fs }
  else
    let sw := List.lookup f SUPPORTED_WRAPPERS
    let ms1 := s.modules.map (fun nm =>
      (nm.1, if guardCond nm.2 then nm.2.appendHeader (gOpen f) else nm.2))
    let ms2 := ms1.map (fun nm =>
      (nm.1, if guardCond nm.2 then nm.2.appendImpl (gOpen f) else nm.2))
    { s with
      featureSupported := fs,
      supportedWrappers := sw,
      modules := ms2,
      calls := s.calls ++ [Call.registry (RegEvent.beginFeature f)]
        ++ deliverAll s.wrappers sw (WEvent.onBeginFeature f)
        ++ requireCmds.flatMap (fun c => deliverAll s.wrappers sw (WEvent.onFeatureNewCmd c)) }

/-- `endFeature` (cerealgenerator.py lines 846-861): when no supported
feature is active it returns silently; otherwise it resets
`featureSupported`, notifies the TypeRegistry, appends the guard-close line
(header pass, then impl pass) and fires `onEndFeature` on the restricted
wrapper set. -/
def GenState.endFeature (s : GenState) : GenState :=
  if s.featureSupported = false then s
  else
    let ms1 := s.modules.map (fun nm =>
      (nm.1, if guardCond nm.2 then nm.2.appendHeader gClose else nm.2))
    let ms2 := ms1.map (fun nm =>
      (nm.1, if guardCond nm.2 then nm.2.appendImpl gClose else nm.2))
    { s with
      featureSupported := false,
      modules := ms2,
      calls := s.calls ++ [Call.registry RegEvent.endFeature]
        ++ deliverAll s.wrappers s.supportedWrappers WEvent.onEndFeature }

/-- Append one TypeRegistry callback to the call log. -/
def GenState.recordRegistry (s : GenState) (e : RegEvent) : GenState :=
  { s with calls := s.calls ++ [Call.registry e] }

/-- `genType` (cerealgenerator.py lines 863-890): five literal early-return
cases forward exception-set names to the TypeRegistry only while the active
feature is unsupported; any other name under an unsupported feature is
dropped; under a supported feature the TypeRegistry is notified and then
every restricted wrapper. -/
def GenState.genType (s : GenState) (name : String) : GenState :=
  if s.featureSupported == false && name == "int" then
    s.recordRegistry (RegEvent.genType name)
  else if s.featureSupported == false && name == "int64_t" then
    s.recordRegistry (RegEvent.genType name)
  else if s.featureSupported == false && name == "double" then
    s.recordRegistry (RegEvent.genType name)
  else if s.featureSupported == false && name == "VkPresentScalingFlagsEXT" then
    s.recordRegistry (RegEvent.genType name)
  else if s.featureSupported == false && name == "VkPresentGravityFlagsEXT" then
    s.recordRegistry (RegEvent.genType name)
  else if s.featureSupported == false then s
  else
    let s1 := s.recordRegistry (RegEvent.genType name)
    { s1 with calls := s1.calls
        ++ deliverAll s1.wrappers s1.supportedWrappers (WEvent.onGenType name) }

/-- `genStruct` (cerealgenerator.py lines 892-898). -/
def GenState.genStruct (s : GenState) (name : String) : GenState :=
  if s.featureSupported == false then s
  else
    let s1 := s.recordRegistry (RegEvent.genStruct name)
    { s1 with calls := s1.calls
        ++ deliverAll s1.wrappers s1.supportedWrappers (WEvent.onGenStruct name) }

/-- `genGroup` (cerealgenerator.py lines 900-906). -/
def GenState.genGroup (s : GenState) (name : String) : GenState :=
  if s.featureSupported == false then s
  else
    let s1 := s.recordRegistry (RegEvent.genGroup name)
    { s1 with calls := s1.calls
        ++ deliverAll s1.wrappers s1.supportedWrappers (WEvent.onGenGroup name) }

/-- `genEnum` (cerealgenerator.py lines 908-913). -/
def GenState.genEnum (s : GenState) (name : String) : GenState :=
  if s.featureSupported == false then s
  else
    let s1 := s.recordRegistry (RegEvent.genEnum name)
    { s1 with calls := s1.calls
        ++ deliverAll s1.wrappers s1.supportedWrappers (WEvent.onGenEnum name) }

/-- `genCmd` (cerealgenerator.py lines 915-921). -/
def GenState.genCmd (s : GenState) (name : String) : GenState :=
  if s.featureSupported == false then s
  else
    let s1 := s.recordRegistry (RegEvent.genCmd name)
    { s1 with calls := s1.calls
        ++ deliverAll s1.wrappers s1.supportedWrappers (WEvent.onGenCmd name) }

/-- One per-element schema definition event (the alias marker carried by the
Python callbacks is forwarded unchanged to the out-of-scope emitters and is
not separately modelled). -/
inductive Elem where
  | ty (name : String)
  | st (name : String)
  | gr (name : String)
  | en (name : String)
  | cm (name : String)
  deriving DecidableEq, Repr

def elemRegEvent : Elem → RegEvent
  | Elem.ty n => RegEvent.genType n
  | Elem.st n => RegEvent.genStruct n
  | Elem.gr n => RegEvent.genGroup n
  | Elem.en n => RegEvent.genEnum n
  | Elem.cm n => RegEvent.genCmd n

def elemWEvent : Elem → WEvent
  | Elem.ty n => WEvent.onGenType n
  | Elem.st n => WEvent.onGenStruct n
  | Elem.gr n => WEvent.onGenGroup n
  | Elem.en n => WEvent.onGenEnum n
  | Elem.cm n => WEvent.onGenCmd n

def GenState.stepElem (s : GenState) : Elem → GenState
  | Elem.ty n => s.genType n
  | Elem.st n => s.genStruct n
  | Elem.gr n => s.genGroup n
  | Elem.en n => s.genEnum n
  | Elem.cm n => s.genCmd n

/-- A raw schema-walker event, as delivered between `beginFile` and
`endFile`. -/
inductive Event where
  | beginFeature (name : String) (requireCmds : List String)
  | endFeature
  | elem (e : Elem)
  deriving DecidableEq, Repr

def GenState.stepEvent (s : GenState) : Event → GenState
  | Event.beginFeature f cmds => s.beginFeature f cmds
  | Event.endFeature => s.endFeature
  | Event.elem e => s.stepElem e

def runEvents (s : GenState) : List Event → GenState
  | [] => s
  | e :: es => runEvents (s.stepEvent e) es

/-- One feature as the schema walker delivers it (spec §6): begin-feature
with the feature's `require`-block command list, the interleaved definition
events, then end-feature. -/
structure FeatureBlock where
  name : String
  requireCmds : List String
  elems : List Elem
  deriving DecidableEq, Repr

def blockEvents (b : FeatureBlock) : List Event :=
  [Event.beginFeature b.name b.requireCmds] ++ b.elems.map Event.elem ++ [Event.endFeature]

def runBlock (s : GenState) (b : FeatureBlock) : GenState :=
  runEvents s (blockEvents b)

def runBlocks (s : GenState) : List FeatureBlock → GenState
  | [] => s
  | b :: bs => runBlocks (runBlock s b) bs

/-- A full traversal: `beginFile`, the feature blocks, `endFile`. -/
def runFull (s : GenState) (bs : List FeatureBlock) : GenState :=
  (runBlocks s.beginFile bs).endFile

/-- `CerealGenerator.__init__` (cerealgenerator.py lines 249-695): the exact
registration sequence of modules (guest encoder, common, host, the
`PyScript` printer) and of the 22 wrappers, followed by the build-fragment
aggregation.  `guestDirExists` / `hostDirExists` model the two
`os.path.exists` probes; `suppressOpt` models the
`ANDROID_EMU_VK_CEREAL_SUPPRESS` environment variable (split into
`constructGenerator` below). -/
def constructRegistries (guestDirExists hostDirExists : Bool) : GenState :=
  let s : GenState := {}
  let s := s.addGuestEncoderModule guestDirExists "VkEncoder" false false none
  let s := s.addGuestEncoderModule guestDirExists "goldfish_vk_extension_structs_guest" false false none
  let s := s.addGuestEncoderModule guestDirExists "goldfish_vk_marshaling_guest" false false none
  let s := s.addGuestEncoderModule guestDirExists "goldfish_vk_reserved_marshaling_guest" false false none
  let s := s.addGuestEncoderModule guestDirExists "goldfish_vk_deepcopy_guest" false false none
  let s := s.addGuestEncoderModule guestDirExists "goldfish_vk_counting_guest" false false none
  let s := s.addGuestEncoderModule guestDirExists "goldfish_vk_transform_guest" false false none
  let s := s.addGuestEncoderModule guestDirExists "vulkan_gfxstream_structure_type" true true
    (some "vulkan_gfxstream_structure_type_guest")
  let s := s.addGuestEncoderModule guestDirExists "func_table" false false none
  let s := s.addCppModule "common" "goldfish_vk_extension_structs" false false false false none
  let s := s.addCppModule "common" "goldfish_vk_marshaling" false false false false none
  let s := s.addCppModule "common" "goldfish_vk_reserved_marshaling" false false false false none
  let s := s.addCppModule "common" "goldfish_vk_deepcopy" false false false false none
  let s := s.addCppModule "common" "goldfish_vk_handlemap" false false false false none
  let s := s.addCppModule "common" "goldfish_vk_dispatch" false false false false none
  let s := s.addCppModule "common" "goldfish_vk_transform" false false false false none
  let s := s.addHostModule hostDirExists "VkDecoder" false false false false none
  let s := s.addHostModule hostDirExists "VkDecoderSnapshot" false false false false none
  let s := s.addHostModule hostDirExists "VkSubDecoder" true false false false none
  let s := s.addModule "ApiLogDecoder"
    { directory := "host", basename := "vulkan_printer", isCerealModule := false }
  let s := s.addHostModule hostDirExists "vulkan_gfxstream_structure_type" false false true true
    (some "vulkan_gfxstream_structure_type_host")
  let s := s.addHostModule hostDirExists "vk_android_native_buffer_structure_type"
    false false true true none
  let s := s.addWrapper WrapperKind.vulkanEncoder "VkEncoder"
  let s := s.addWrapper WrapperKind.vulkanExtensionStructs "goldfish_vk_extension_structs_guest"
  let s := s.addWrapper WrapperKind.vulkanMarshaling "goldfish_vk_marshaling_guest"
  let s := s.addWrapper WrapperKind.vulkanReservedMarshaling "goldfish_vk_reserved_marshaling_guest"
  let s := s.addWrapper WrapperKind.vulkanDeepcopy "goldfish_vk_deepcopy_guest"
  let s := s.addWrapper WrapperKind.vulkanCounting "goldfish_vk_counting_guest"
  let s := s.addWrapper WrapperKind.vulkanTransform "goldfish_vk_transform_guest"
  let s := s.addWrapper WrapperKind.vulkanFuncTable "func_table"
  let s := s.addWrapper WrapperKind.vulkanExtensionStructs "goldfish_vk_extension_structs"
  let s := s.addWrapper WrapperKind.vulkanMarshaling "goldfish_vk_marshaling"
  let s := s.addWrapper WrapperKind.vulkanReservedMarshaling "goldfish_vk_reserved_marshaling"
  let s := s.addWrapper WrapperKind.vulkanDeepcopy "goldfish_vk_deepcopy"
  let s := s.addWrapper WrapperKind.vulkanHandleMap "goldfish_vk_handlemap"
  let s := s.addWrapper WrapperKind.vulkanDispatch "goldfish_vk_dispatch"
  let s := s.addWrapper WrapperKind.vulkanTransform "goldfish_vk_transform"
  let s := s.addWrapper WrapperKind.vulkanDecoder "VkDecoder"
  let s := s.addWrapper WrapperKind.vulkanDecoderSnapshot "VkDecoderSnapshot"
  let s := s.addWrapper WrapperKind.vulkanSubDecoder "VkSubDecoder"
  let s := s.addWrapper WrapperKind.apiLogDecoder "ApiLogDecoder"
  let s := s.addWrapper WrapperKind.vulkanGfxstreamStructureType "vulkan_gfxstream_structure_type_guest"
  let s := s.addWrapper WrapperKind.vulkanGfxstreamStructureType "vulkan_gfxstream_structure_type_host"
  let s := s.addWrapper WrapperKind.vulkanAndroidNativeBufferStructureType "vk_android_native_buffer_structure_type"
  s.aggregateSrcEntries

/-- `CerealGenerator.__init__`: `init_suppress_option()` reads the
suppression switch (none of the registration steps reads the two resulting
globals, so the construction is the registry construction with the two
suppression fields set from the switch). -/
def constructGenerator (guestDirExists hostDirExists : Bool)
    (suppressOpt : Option String) : GenState :=
  { constructRegistries guestDirExists hostDirExists with
    suppressEnabled := (initSuppress suppressOpt).1,
    suppressExceptModule := (initSuppress suppressOpt).2 }

/-! Derived descriptions of the state machine, used to state the claims.
Each is proved equal to (or characterizing) the corresponding run of the
step functions above. -/

/-- Net effect of one supported feature block on one module: header-open,
impl-open (from `beginFeature`), then header-close, impl-close (from
`endFeature`), each pass guarded by the `isinstance`/`suppressFeatureGuards`
test exactly as in the source lambdas. -/
def guardBlockModule (f : String) (m : Module) : Module :=
  let m1 := if guardCond m then m.appendHeader (gOpen f) else m
  let m2 := if guardCond m1 then m1.appendImpl (gOpen f) else m1
  let m3 := if guardCond m2 then m2.appendHeader gClose else m2
  if guardCond m3 then m3.appendImpl gClose else m3

/-- Net effect of a whole traversal on one module: the supported blocks act
in order, the unsupported ones do nothing. -/
def guardScriptModule (bs : List FeatureBlock) (m : Module) : Module :=
  match bs with
  | [] => m
  | b :: tl =>
    guardScriptModule tl
      (if SUPPORTED_FEATURES.contains b.name then guardBlockModule b.name m else m)

/-- The names of the supported features of a traversal, in order. -/
def supportedNames (bs : List FeatureBlock) : List String :=
  bs.filterMap (fun b => if SUPPORTED_FEATURES.contains b.name then some b.name else none)

/-- The guard text a guarded, unsuppressed module accumulates: one
open/close pair per supported feature, in feature order. -/
def guardScript (fs : List String) : List String :=
  fs.flatMap (fun f => [gOpen f, gClose])

/-- The five exception-set names of `genType` (cerealgenerator.py lines
866-884), in source order. -/
def exceptionTypes : List String :=
  ["int", "int64_t", "double", "VkPresentScalingFlagsEXT", "VkPresentGravityFlagsEXT"]

/-- Call-log contribution of one per-element event under a supported
feature: TypeRegistry first, then the restricted wrappers in registration
order. -/
def elemCalls (ws : List Wrapper) (sw : Option (List WrapperKind)) (e : Elem) : List Call :=
  [Call.registry (elemRegEvent e)] ++ deliverAll ws sw (elemWEvent e)

/-- Call-log contribution of one per-element event under an unsupported
feature: the §4.4 exception policy only. -/
def unsupElemCalls (e : Elem) : List Call :=
  match e with
  | Elem.ty n => if exceptionTypes.contains n then [Call.registry (RegEvent.genType n)] else []
  | _ => []

/-- Call-log contribution of one whole feature block. -/
def blockCalls (ws : List Wrapper) (b : FeatureBlock) : List Call :=
  if SUPPORTED_FEATURES.contains b.name then
    [Call.registry (RegEvent.beginFeature b.name)]
      ++ deliverAll ws (List.lookup b.name SUPPORTED_WRAPPERS) (WEvent.onBeginFeature b.name)
      ++ b.requireCmds.flatMap (fun c =>
          deliverAll ws (List.lookup b.name SUPPORTED_WRAPPERS) (WEvent.onFeatureNewCmd c))
      ++ b.elems.flatMap (fun e => elemCalls ws (List.lookup b.name SUPPORTED_WRAPPERS) e)
      ++ [Call.registry RegEvent.endFeature]
      ++ deliverAll ws (List.lookup b.name SUPPORTED_WRAPPERS) WEvent.onEndFeature
  else
    b.elems.flatMap unsupElemCalls

/-- Call-log contribution of a list of blocks. -/
def tracesCalls (ws : List Wrapper) (bs : List FeatureBlock) : List Call :=
  bs.flatMap (fun b => blockCalls ws b)

/-- The restriction-set cache after a list of blocks. -/
def swAfter (bs : List FeatureBlock) (sw : Option (List WrapperKind)) :
    Option (List WrapperKind) :=
  match bs with
  | [] => sw
  | b :: tl =>
    swAfter tl (if SUPPORTED_FEATURES.contains b.name
                then List.lookup b.name SUPPORTED_WRAPPERS else sw)

/-- The type names recorded by the TypeRegistry (its `onGenType` callbacks)
within a call log. -/
def registryTypeNames (cs : List Call) : List String :=
  cs.filterMap (fun c =>
    match c with
    | Call.registry (RegEvent.genType n) => some n
    | _ => none)

/-- The names of the type-definition events of an element list. -/
def typeNamesOf (es : List Elem) : List String :=
  es.filterMap (fun e =>
    match e with
    | Elem.ty n => some n
    | _ => none)

/-- All implementation-file entries of a module registry (every module's
build-fragment entry, regardless of bucket). -/
def implEntries (s : GenState) : List String :=
  s.modules.filterMap (fun nm => nm.2.srcEntry)

/-- A wrapper at registration position `i` with kind `k` receives the full
per-feature callback sequence of block `b`: `onBeginFeature`, every
`onFeatureNewCmd`, every per-element callback, and `onEndFeature`. -/
def receivesAllCallbacks (ws : List Wrapper) (b : FeatureBlock) (i : Nat) (k : WrapperKind) : Prop :=
  Call.wrapper i k (WEvent.onBeginFeature b.name) ∈ blockCalls ws b ∧
  (∀ c ∈ b.requireCmds, Call.wrapper i k (WEvent.onFeatureNewCmd c) ∈ blockCalls ws b) ∧
  (∀ e ∈ b.elems, Call.wrapper i k (elemWEvent e) ∈ blockCalls ws b) ∧
  Call.wrapper i k WEvent.onEndFeature ∈ blockCalls ws b

/-- Conclusion of claim C1: (i) after a traversal every module's state is
its initial state transformed by `guardScriptModule`; (ii) a `cereal.Module`
with guards enabled and not suppressed accumulates in each buffer exactly
the list `guardScript (supportedNames bs)` — one `#ifdef`/`#endif` pair per
supported feature, open immediately before its own close, pairs in feature
order (hence never interleaved), and nothing at all for unsupported
features; (iii) a module failing the guard condition receives no guard text
whatsoever. -/
def C1Concl (s : GenState) (bs : List FeatureBlock) : Prop :=
  ((runBlocks s bs).modules = s.modules.map (fun nm => (nm.1, guardScriptModule bs nm.2))) ∧
  (∀ m : Module, m.isCerealModule = true → m.suppressFeatureGuards = false →
    m.suppress = false →
    (guardScriptModule bs m).headerBuf = m.headerBuf ++ guardScript (supportedNames bs) ∧
    (guardScriptModule bs m).implBuf = m.implBuf ++ guardScript (supportedNames bs)) ∧
  (∀ m : Module, guardCond m = false → guardScriptModule bs m = m)

/-- Conclusion of claim C2: (i) while no supported feature is active,
`genType` forwards a name to the TypeRegistry — and changes nothing else, in
particular no wrapper is called and no module buffer is touched — exactly
when the name is in the fixed exception set, and is a complete no-op
otherwise; (ii) after a full traversal the registry's recorded type names
are all names from supported features plus exactly the exception-set names
among the types of unsupported features. -/
def C2Concl (s : GenState) : Prop :=
  (∀ n : String,
    s.genType n =
      if exceptionTypes.contains n
      then { s with calls := s.calls ++ [Call.registry (RegEvent.genType n)] }
      else s) ∧
  (∀ bs : List FeatureBlock,
    registryTypeNames (runBlocks s bs).calls =
      registryTypeNames s.calls ++ bs.flatMap (fun b =>
        if SUPPORTED_FEATURES.contains b.name then typeNamesOf b.elems
        else (typeNamesOf b.elems).filter (fun n => exceptionTypes.contains n)))

/-- Conclusion of claim C3: during a supported feature block, (i) the calls
delivered are exactly `blockCalls`; (ii) with a restriction entry `R`,
every wrapper call goes to a kind in `R`, a registered wrapper of an
unlisted kind receives zero calls, and every wrapper of a listed kind
receives the whole callback sequence; (iii) without an entry, every
registered wrapper receives the whole callback sequence. -/
def C3Concl (s : GenState) (b : FeatureBlock) : Prop :=
  ((runBlock s b).calls = s.calls ++ blockCalls s.wrappers b) ∧
  (∀ R, List.lookup b.name SUPPORTED_WRAPPERS = some R →
    (∀ i k e, Call.wrapper i k e ∈ blockCalls s.wrappers b → R.contains k = true) ∧
    (∀ i w, s.wrappers.get? i = some w → R.contains w.kind = false →
      ∀ k e, Call.wrapper i k e ∉ blockCalls s.wrappers b) ∧
    (∀ i w, s.wrappers.get? i = some w → R.contains w.kind = true →
      receivesAllCallbacks s.wrappers b i w.kind)) ∧
  (List.lookup b.name SUPPORTED_WRAPPERS = none →
    ∀ i w, s.wrappers.get? i = some w → receivesAllCallbacks s.wrappers b i w.kind)

/-- Conclusion of claim C7: for every per-element event under a supported
feature, the TypeRegistry callback is recorded strictly before every
wrapper callback of that event, the wrapper callbacks carry strictly
increasing registration indices (wrapper-registration order), every
delivered wrapper call passes the restriction filter, and the index
sequence is identical for every event kind. -/
def C7Concl (s : GenState) : Prop :=
  ∀ e : Elem,
    (s.stepElem e =
      { s with calls := s.calls ++ elemCalls s.wrappers s.supportedWrappers e }) ∧
    List.Pairwise (fun a b => callIdx a < callIdx b)
      (deliverAll s.wrappers s.supportedWrappers (elemWEvent e)) ∧
    (∀ c ∈ deliverAll s.wrappers s.supportedWrappers (elemWEvent e),
      ∃ i k, c = Call.wrapper i k (elemWEvent e) ∧
        wrapperApplies s.supportedWrappers k = true) ∧
    (∀ e2 : Elem,
      (deliverAll s.wrappers s.supportedWrappers (elemWEvent e)).map callIdx =
        (deliverAll s.wrappers s.supportedWrappers (elemWEvent e2)).map callIdx)

/-- Conclusion of claim C6: with the suppression switch set to module `M`,
after begin-file every registered module except `M` carries the suppress
flag and `M` does not; after a full run every module except `M` emits
nothing (zero bytes), and `M`'s emitted output is byte-identical to its
output in an unsuppressed run over the same schema input. -/
def C6Concl (M : String) (bs : List FeatureBlock) : Prop :=
  (∀ p ∈ ((constructGenerator true true (some M)).beginFile).modules,
      p.1 ≠ M → p.2.suppress = true) ∧
  (∀ p ∈ ((constructGenerator true true (some M)).beginFile).modules,
      p.1 = M → p.2.suppress = false) ∧
  (∀ p ∈ (runFull (constructGenerator true true (some M)) bs).modules,
      p.1 ≠ M → p.2.emitOutput = none) ∧
  ((List.lookup M (runFull (constructGenerator true true (some M)) bs).modules).map
      Module.emitOutput =
    (List.lookup M (runFull (constructGenerator true true none) bs).modules).map
      Module.emitOutput)

end Gfxstream

namespace Genvk

/-!
Embedding of the gfxstream registry merge in `genvk.py` (lines 846-895):
when `--registryGfxstream` is supplied, the gfxstream XML tree is merged
into the base `vk.xml` tree section by section (`types`, `commands`,
`extensions`).  XML elements are modelled structurally; `eid` stands for
Python object identity (every element of a freshly parsed tree is a
distinct object), which matters because `getEntryName` returns the
`proto`/`name` *element* for command entries and the merge dict is then
keyed by that object's identity. -/

/-- An ElementTree element: tag, attributes in document order, children in
document order, and an identity token standing for the Python object id. -/
inductive XElem where
  | mk (eid : Nat) (tag : String) (attrs : List (String × String)) (children : List XElem)

def XElem.eid : XElem → Nat
  | XElem.mk i _ _ _ => i

def XElem.tag : XElem → String
  | XElem.mk _ t _ _ => t

def XElem.attrs : XElem → List (String × String)
  | XElem.mk _ _ a _ => a

def XElem.children : XElem → List XElem
  | XElem.mk _ _ _ c => c

/-- `element.find(tag)`: first child with the given tag, if any. -/
def xFind (t : String) (e : XElem) : Option XElem :=
  e.children.find? (fun c => c.tag == t)

/-- `element.get(attr)`: attribute lookup. -/
def xGet (a : String) (e : XElem) : Option String :=
  (e.attrs.find? (fun p => p.1 == a)).map (fun p => p.2)

/-- A key of `originalEntryDict`: either the `name` attribute's string value
or, for command entries, the identity of the `proto`/`name` element that
`getEntryName` returns. -/
inductive EntryKey where
  | str (s : String)
  | elemId (i : Nat)
  deriving DecidableEq, Repr

/-- `getEntryName` (genvk.py lines 852-859): the `name` attribute when
present; otherwise `entry.find("proto").find("name")` — `None` (via the
caught `AttributeError`) when there is no `proto` child, `None` when the
`proto` child has no `name` child, and the `name` element itself (keyed by
identity) when it exists. -/
def getEntryName (e : XElem) : Option EntryKey :=
  match xGet "name" e with
  | some n => some (EntryKey.str n)
  | none =>
    match xFind "proto" e with
    | none => none
    | some p =>
      match xFind "name" p with
      | none => none
      | some n => some (EntryKey.elemId n.eid)

/-- `originalEntryDict`: one pass over the base section's entries, mapping
each named entry's key to its position; a later entry with the same key
overrides an earlier one (Python dict assignment), which the head-first
`List.lookup` over this prepend-built list reproduces. -/
def buildEntryDict (base : List XElem) : List (EntryKey × Nat) :=
  (base.enum.foldl
    (fun d ei =>
      match getEntryName ei.2 with
      | some k => (k, ei.1) :: d
      | none => d)
    ([] : List (EntryKey × Nat)))

/-- `originalEntry.set(key, value)` for every attribute of the gfxstream
entry: replace the value in place when the key exists, append otherwise. -/
def setAttr (l : List (String × String)) (k v : String) : List (String × String) :=
  if l.any (fun p => p.1 == k) then
    l.map (fun p => if p.1 == k then (k, v) else p)
  else
    l ++ [(k, v)]

def mergeAttrs (orig new : List (String × String)) : List (String × String) :=
  new.foldl (fun acc kv => setAttr acc kv.1 kv.2) orig

/-- Append `extra` to the children of the first `require` child (the element
`originalEntry.find("require")` returns). -/
def appendToFirstRequire (cs : List XElem) (extra : List XElem) : List XElem :=
  match cs with
  | [] => []
  | c :: rest =>
    if c.tag == "require" then
      XElem.mk c.eid c.tag c.attrs (c.children ++ extra) :: rest
    else
      c :: appendToFirstRequire rest extra

/-- The `extensions` branch of the merge (genvk.py lines 880-887): copy the
gfxstream entry's attributes over the original and append the gfxstream
`require` children to the original's `require` block.  `none` models the
uncaught `AttributeError` raised when the gfxstream entry has a `require`
block but the original has none. -/
def extendExtension (orig e : XElem) : Option XElem :=
  let o1 := XElem.mk orig.eid orig.tag (mergeAttrs orig.attrs e.attrs) orig.children
  match xFind "require" e with
  | none => some o1
  | some req =>
    match xFind "require" o1 with
    | none => none
    | some _ => some (XElem.mk o1.eid o1.tag o1.attrs (appendToFirstRequire o1.children req.children))

/-- The `types` branch of the merge (genvk.py lines 889-895):
`originalEntry.clear()` then rebuild from the gfxstream entry's attributes
and children (the tag and the object identity stay the original's). -/
def replaceType (orig e : XElem) : XElem :=
  XElem.mk orig.eid orig.tag e.attrs e.children

/-- `name not in originalEntryDict.keys()`, phrased as the dict position of
the entry's key: `none` when the entry has no key or its key is absent. -/
def mergeEntryIdx (dict : List (EntryKey × Nat)) (e : XElem) : Option Nat :=
  match getEntryName e with
  | none => none
  | some k => List.lookup k dict

/-- Processing of one gfxstream entry against the current section contents
(`cur`) and the pre-built dict: a key not in the dict (or no key at all)
appends the entry; an existing key merges for `extensions`, replaces for
`types`, and falls through both branches (entry dropped) for every other
section.  `none` models an uncaught Python exception. -/
def mergeEntry (sec : String) (cur : List XElem) (dict : List (EntryKey × Nat))
    (e : XElem) : Option (List XElem) :=
  match mergeEntryIdx dict e with
  | none => some (cur ++ [e])
  | some i =>
    if sec == "extensions" then
      match cur.get? i with
      | none => none
      | some orig => (extendExtension orig e).map (fun e2 => cur.set i e2)
    else if sec == "types" then
      match cur.get? i with
      | none => none
      | some orig => some (cur.set i (replaceType orig e))
    else
      some cur

/-- The merge of one section: the dict is built once from the base entries,
then every gfxstream entry is folded through `mergeEntry`. -/
def mergeSection (sec : String) (base gfx : List XElem) : Option (List XElem) :=
  gfx.foldlM (fun cur e => mergeEntry sec cur (buildEntryDict base) e) base

/-- Conclusion of claim C10: (i) in any of the merged sections, a gfxstream
entry whose key does not occur in the base registry's dict is appended to
the section; (ii) an `extensions` entry with an existing key has its
attributes copied over the original and its `require` children appended to
the original's `require` block, in place; (iii) a `types` entry with an
existing key replaces the original entry entirely (attributes and children
rebuilt from the gfxstream entry, tag and identity retained), in place. -/
def C10Concl : Prop :=
  (∀ (sec : String) (base cur : List XElem) (e : XElem) (k : EntryKey),
    getEntryName e = some k → List.lookup k (buildEntryDict base) = none →
    mergeEntry sec cur (buildEntryDict base) e = some (cur ++ [e])) ∧
  (∀ (base cur : List XElem) (e : XElem) (k : EntryKey) (i : Nat) (orig : XElem),
    getEntryName e = some k → List.lookup k (buildEntryDict base) = some i →
    cur.get? i = some orig →
    ((xFind "require" e).isSome = true → (xFind "require" orig).isSome = true) →
    ∃ merged, extendExtension orig e = some merged ∧
      mergeEntry "extensions" cur (buildEntryDict base) e = some (cur.set i merged) ∧
      merged.tag = orig.tag ∧
      merged.eid = orig.eid ∧
      merged.attrs = mergeAttrs orig.attrs e.attrs ∧
      (∀ req, xFind "require" e = some req →
        merged.children = appendToFirstRequire orig.children req.children ∧
        (∀ r, xFind "require" orig = some r →
          xFind "require" merged =
            some (XElem.mk r.eid r.tag r.attrs (r.children ++ req.children)))) ∧
      (xFind "require" e = none → merged.children = orig.children)) ∧
  (∀ (base cur : List XElem) (e : XElem) (k : EntryKey) (i : Nat) (orig : XElem),
    getEntryName e = some k → List.lookup k (buildEntryDict base) = some i →
    cur.get? i = some orig →
    mergeEntry "types" cur (buildEntryDict base) e =
      some (cur.set i (XElem.mk orig.eid orig.tag e.attrs e.children)))

end Genvk

namespace Gfxstream

/-! Helper lemmas about modules and guard appends. -/

@[simp]
lemma Module.appendHeader_suppress (m : Module) (s : String) :
    (m.appendHeader s).suppress = m.suppress := by
  unfold Module.appendHeader; split <;> rfl

@[simp]
lemma Module.appendImpl_suppress (m : Module) (s : String) :
    (m.appendImpl s).suppress = m.suppress := by
  unfold Module.appendImpl; split <;> rfl

@[simp]
lemma Module.appendHeader_guardCond (m : Module) (s : String) :
    guardCond (m.appendHeader s) = guardCond m := by
  unfold Module.appendHeader guardCond; split <;> rfl

@[simp]
lemma Module.appendImpl_guardCond (m : Module) (s : String) :
    guardCond (m.appendImpl s) = guardCond m := by
  unfold Module.appendImpl guardCond; split <;> rfl

lemma guardBlockModule_suppress (f : String) (m : Module) :
    (guardBlockModule f m).suppress = m.suppress := by
  by_cases hg : guardCond m = true
  · simp [guardBlockModule, hg]
  · simp only [Bool.not_eq_true] at hg
    simp [guardBlockModule, hg]

lemma guardBlockModule_guardCond (f : String) (m : Module) :
    guardCond (guardBlockModule f m) = guardCond m := by
  by_cases hg : guardCond m = true
  · simp [guardBlockModule, hg]
  · simp only [Bool.not_eq_true] at hg
    simp [guardBlockModule, hg]

lemma guardBlockModule_of_not_guard (f : String) (m : Module) (h : guardCond m = false) :
    guardBlockModule f m = m := by
  simp [guardBlockModule, h]

lemma guardBlockModule_of_guard (f : String) (m : Module)
    (h : guardCond m = true) (hs : m.suppress = false) :
    guardBlockModule f m =
      { m with headerBuf := m.headerBuf ++ [gOpen f, gClose],
               implBuf := m.implBuf ++ [gOpen f, gClose] } := by
  cases m with
  | mk dir bn hb ib sup sfg ho io icm =>
    simp only [Module.suppress] at hs
    subst hs
    unfold guardBlockModule Module.appendHeader Module.appendImpl
    simp_all [guardCond]

lemma guardScriptModule_suppress (bs : List FeatureBlock) (m : Module) :
    (guardScriptModule bs m).suppress = m.suppress := by
  induction bs generalizing m with
  | nil => rfl
  | cons b tl ih =>
    unfold guardScriptModule
    split
    · rw [ih, guardBlockModule_suppress]
    · rw [ih]

lemma guardScriptModule_guardCond (bs : List FeatureBlock) (m : Module) :
    guardCond (guardScriptModule bs m) = guardCond m := by
  induction bs generalizing m with
  | nil => rfl
  | cons b tl ih =>
    unfold guardScriptModule
    split
    · rw [ih, guardBlockModule_guardCond]
    · rw [ih]

/-! Helper lemmas about `deliverFrom` / `deliverAll`. -/

lemma mem_deliverFrom {c : Call} {i : Nat} {ws : List Wrapper}
    {sw : Option (List WrapperKind)} {e : WEvent}
    (h : c ∈ deliverFrom i ws sw e) :
    ∃ j k, c = Call.wrapper j k e ∧ wrapperApplies sw k = true ∧ i ≤ j := by
  induction ws generalizing i with
  | nil => simp [deliverFrom] at h
  | cons w rest ih =>
    unfold deliverFrom at h
    rcases List.mem_append.mp h with h1 | h2
    · by_cases ha : wrapperApplies sw w.kind = true
      · simp [ha] at h1
        exact ⟨i, w.kind, h1, ha, Nat.le_refl i⟩
      · simp [Bool.not_eq_true] at ha
        simp [ha] at h1
    · obtain ⟨j, k, hc, hap, hij⟩ := ih h2
      exact ⟨j, k, hc, hap, Nat.le_of_succ_le hij⟩

lemma wrapper_mem_deliverFrom_iff {j : Nat} {k : WrapperKind} {e2 : WEvent}
    {i : Nat} {ws : List Wrapper} {sw : Option (List WrapperKind)} {e : WEvent} :
    Call.wrapper j k e2 ∈ deliverFrom i ws sw e ↔
      e2 = e ∧ ∃ d w, ws.get? d = some w ∧ j = i + d ∧ w.kind = k ∧
        wrapperApplies sw k = true := by
  induction ws generalizing i j with
  | nil => simp [deliverFrom]
  | cons w rest ih =>
    unfold deliverFrom
    rw [List.mem_append]
    constructor
    · intro h
      rcases h with h1 | h2
      · by_cases ha : wrapperApplies sw w.kind = true
        · simp [ha] at h1
          obtain ⟨hj, hk, he⟩ := h1
          subst hj; subst hk; subst he
          exact ⟨rfl, 0, w, rfl, rfl, rfl, ha⟩
        · simp [Bool.not_eq_true] at ha
          simp [ha] at h1
      · obtain ⟨he, d, w2, hget, hj, hk, ha⟩ := ih.mp h2
        refine ⟨he, d + 1, w2, by simpa using hget, by omega, hk, ha⟩
    · rintro ⟨he, d, w2, hget, hj, hk, ha⟩
      cases d with
      | zero =>
        simp at hget
        subst hget; subst he; subst hk
        left
        simp [ha, hj]
      | succ d2 =>
        right
        refine ih.mpr ⟨he, d2, w2, by simpa using hget, by omega, hk, ha⟩

lemma deliverFrom_idx_ge {c : Call} {i : Nat} {ws : List Wrapper}
    {sw : Option (List WrapperKind)} {e : WEvent}
    (h : c ∈ deliverFrom i ws sw e) : i ≤ callIdx c := by
  obtain ⟨j, k, hc, _, hij⟩ := mem_deliverFrom h
  subst hc
  exact hij

lemma deliverFrom_pairwise (i : Nat) (ws : List Wrapper)
    (sw : Option (List WrapperKind)) (e : WEvent) :
    List.Pairwise (fun a b => callIdx a < callIdx b) (deliverFrom i ws sw e) := by
  induction ws generalizing i with
  | nil => simp [deliverFrom]
  | cons w rest ih =>
    unfold deliverFrom
    by_cases ha : wrapperApplies sw w.kind = true
    · simp only [ha, if_pos]
      rw [List.singleton_append, List.pairwise_cons]
      refine ⟨fun c hc => ?_, ih (i + 1)⟩
      have h2 := deliverFrom_idx_ge hc
      have h3 : callIdx (Call.wrapper i w.kind e) = i := rfl
      omega
    · simp only [Bool.not_eq_true] at ha
      simp only [ha]
      simpa using ih (i + 1)

lemma deliverFrom_idx_map (i : Nat) (ws : List Wrapper)
    (sw : Option (List WrapperKind)) (e e2 : WEvent) :
    (deliverFrom i ws sw e).map callIdx = (deliverFrom i ws sw e2).map callIdx := by
  induction ws generalizing i with
  | nil => rfl
  | cons w rest ih =>
    unfold deliverFrom
    by_cases ha : wrapperApplies sw w.kind = true
    · simp [ha, callIdx, ih (i + 1)]
    · simp only [Bool.not_eq_true] at ha
      simp [ha, ih (i + 1)]

lemma registryTypeNames_deliverFrom (i : Nat) (ws : List Wrapper)
    (sw : Option (List WrapperKind)) (e : WEvent) :
    registryTypeNames (deliverFrom i ws sw e) = [] := by
  induction ws generalizing i with
  | nil => rfl
  | cons w rest ih =>
    unfold deliverFrom
    by_cases ha : wrapperApplies sw w.kind = true
    · simp [ha, registryTypeNames, List.filterMap_append] at ih ⊢
      exact ih (i + 1)
    · simp only [Bool.not_eq_true] at ha
      simp only [ha]
      simpa using ih (i + 1)

/-! Step-level characterizations of the event handlers. -/

lemma stepElem_supported (s : GenState) (e : Elem) (h : s.featureSupported = true) :
    s.stepElem e =
      { s with calls := s.calls ++ elemCalls s.wrappers s.supportedWrappers e } := by
  cases e <;>
    simp [GenState.stepElem, GenState.genType, GenState.genStruct, GenState.genGroup,
      GenState.genEnum, GenState.genCmd, GenState.recordRegistry, h,
      elemCalls, elemRegEvent, elemWEvent, deliverAll]

lemma stepElem_unsupported (s : GenState) (e : Elem) (h : s.featureSupported = false) :
    s.stepElem e = { s with calls := s.calls ++ unsupElemCalls e } := by
  cases e with
  | ty n =>
    show s.genType n = _
    unfold GenState.genType
    by_cases h1 : n = "int"
    · subst h1
      rw [if_pos (show (s.featureSupported == false && "int" == "int") = true by rw [h]; rfl)]
      simp [GenState.recordRegistry, unsupElemCalls, exceptionTypes]
    · rw [if_neg (show ¬(s.featureSupported == false && n == "int") = true by simp [h1])]
      by_cases h2 : n = "int64_t"
      · subst h2
        rw [if_pos (show (s.featureSupported == false && "int64_t" == "int64_t") = true by
          rw [h]; rfl)]
        simp [GenState.recordRegistry, unsupElemCalls, exceptionTypes]
      · rw [if_neg (show ¬(s.featureSupported == false && n == "int64_t") = true by simp [h2])]
        by_cases h3 : n = "double"
        · subst h3
          rw [if_pos (show (s.featureSupported == false && "double" == "double") = true by
            rw [h]; rfl)]
          simp [GenState.recordRegistry, unsupElemCalls, exceptionTypes]
        · rw [if_neg (show ¬(s.featureSupported == false && n == "double") = true by simp [h3])]
          by_cases h4 : n = "VkPresentScalingFlagsEXT"
          · subst h4
            rw [if_pos (show (s.featureSupported == false &&
              "VkPresentScalingFlagsEXT" == "VkPresentScalingFlagsEXT") = true by rw [h]; rfl)]
            simp [GenState.recordRegistry, unsupElemCalls, exceptionTypes]
          · rw [if_neg (show ¬(s.featureSupported == false &&
              n == "VkPresentScalingFlagsEXT") = true by simp [h4])]
            by_cases h5 : n = "VkPresentGravityFlagsEXT"
            · subst h5
              rw [if_pos (show (s.featureSupported == false &&
                "VkPresentGravityFlagsEXT" == "VkPresentGravityFlagsEXT") = true by rw [h]; rfl)]
              simp [GenState.recordRegistry, unsupElemCalls, exceptionTypes]
            · rw [if_neg (show ¬(s.featureSupported == false &&
                n == "VkPresentGravityFlagsEXT") = true by simp [h5])]
              rw [if_pos (show (s.featureSupported == false) = true by simp [h])]
              simp [unsupElemCalls, exceptionTypes, h1, h2, h3, h4, h5]
  | st n =>
    show s.genStruct n = _
    unfold GenState.genStruct
    rw [if_pos (show (s.featureSupported == false) = true by simp [h])]
    simp [unsupElemCalls]
  | gr n =>
    show s.genGroup n = _
    unfold GenState.genGroup
    rw [if_pos (show (s.featureSupported == false) = true by simp [h])]
    simp [unsupElemCalls]
  | en n =>
    show s.genEnum n = _
    unfold GenState.genEnum
    rw [if_pos (show (s.featureSupported == false) = true by simp [h])]
    simp [unsupElemCalls]
  | cm n =>
    show s.genCmd n = _
    unfold GenState.genCmd
    rw [if_pos (show (s.featureSupported == false) = true by simp [h])]
    simp [unsupElemCalls]

lemma runEvents_append (s : GenState) (l1 l2 : List Event) :
    runEvents s (l1 ++ l2) = runEvents (runEvents s l1) l2 := by
  induction l1 generalizing s with
  | nil => rfl
  | cons x xs ih => simp [runEvents, ih]

lemma runElems_supported (s : GenState) (es : List Elem) (h : s.featureSupported = true) :
    runEvents s (es.map Event.elem) =
      { s with calls := s.calls ++ es.flatMap (elemCalls s.wrappers s.supportedWrappers) } := by
  induction es generalizing s with
  | nil => simp [runEvents]
  | cons e es ih =>
    simp only [List.map_cons, runEvents, GenState.stepEvent]
    rw [stepElem_supported s e h]
    rw [ih { s with calls := s.calls ++ elemCalls s.wrappers s.supportedWrappers e } h]
    simp

lemma runElems_unsupported (s : GenState) (es : List Elem) (h : s.featureSupported = false) :
    runEvents s (es.map Event.elem) =
      { s with calls := s.calls ++ es.flatMap unsupElemCalls } := by
  induction es generalizing s with
  | nil => simp [runEvents]
  | cons e es ih =>
    simp only [List.map_cons, runEvents, GenState.stepEvent]
    rw [stepElem_unsupported s e h]
    rw [ih { s with calls := s.calls ++ unsupElemCalls e } h]
    simp

/-- Effect of `beginFeature` for a supported feature. -/
lemma beginFeature_supported_eq (s : GenState) (f : String) (cmds : List String)
    (hc : SUPPORTED_FEATURES.contains f = true) :
    s.beginFeature f cmds =
      { s with
        featureSupported := true,
        supportedWrappers := List.lookup f SUPPORTED_WRAPPERS,
        modules := s.modules.map (fun nm =>
          (nm.1,
            (fun m => if guardCond m then m.appendImpl (gOpen f) else m)
              ((fun m => if guardCond m then m.appendHeader (gOpen f) else m) nm.2))),
        calls := s.calls ++ ([Call.registry (RegEvent.beginFeature f)]
          ++ deliverAll s.wrappers (List.lookup f SUPPORTED_WRAPPERS) (WEvent.onBeginFeature f)
          ++ cmds.flatMap (fun c =>
              deliverAll s.wrappers (List.lookup f SUPPORTED_WRAPPERS)
                (WEvent.onFeatureNewCmd c))) } := by
  unfold GenState.beginFeature
  rw [hc]
  simp [List.map_map, Function.comp, List.append_assoc]

/-- Effect of `beginFeature` for an unsupported feature seen from the
between-features state: nothing happens. -/
lemma beginFeature_unsupported_eq (s : GenState) (f : String) (cmds : List String)
    (hc : SUPPORTED_FEATURES.contains f = false) (h : s.featureSupported = false) :
    s.beginFeature f cmds = s := by
  rcases s with ⟨mods, ws, fs, sw, cls, lg, se, sem, g1, g2, g3⟩
  simp only [GenState.featureSupported] at h
  subst h
  unfold GenState.beginFeature
  rw [hc]
  simp

/-- Effect of `endFeature` while a supported feature is active. -/
lemma endFeature_supported_eq (s : GenState) (h : s.featureSupported = true) :
    s.endFeature =
      { s with
        featureSupported := false,
        modules := s.modules.map (fun nm =>
          (nm.1,
            (fun m => if guardCond m then m.appendImpl gClose else m)
              ((fun m => if guardCond m then m.appendHeader gClose else m) nm.2))),
        calls := s.calls ++ ([Call.registry RegEvent.endFeature]
          ++ deliverAll s.wrappers s.supportedWrappers WEvent.onEndFeature) } := by
  unfold GenState.endFeature
  rw [if_neg (by simp [h])]
  simp [List.map_map, Function.comp, List.append_assoc]

/-- Effect of `endFeature` with no supported feature active: the handler
returns silently. -/
lemma endFeature_unsupported_eq (s : GenState) (h : s.featureSupported = false) :
    s.endFeature = s := by
  unfold GenState.endFeature
  rw [if_pos h]

/-- Master lemma: the full effect of one feature block on the generator
state, starting from the between-features invariant
`featureSupported = false`. -/
lemma runBlock_eq (s : GenState) (b : FeatureBlock) (h : s.featureSupported = false) :
    runBlock s b =
      { s with
        featureSupported := false,
        supportedWrappers :=
          if SUPPORTED_FEATURES.contains b.name
          then List.lookup b.name SUPPORTED_WRAPPERS else s.supportedWrappers,
        modules :=
          if SUPPORTED_FEATURES.contains b.name
          then s.modules.map (fun nm => (nm.1, guardBlockModule b.name nm.2))
          else s.modules,
        calls := s.calls ++ blockCalls s.wrappers b } := by
  have e1 : runBlock s b =
      runEvents (s.beginFeature b.name b.requireCmds)
        (b.elems.map Event.elem ++ [Event.endFeature]) := rfl
  have e2 : ∀ t : GenState, runEvents t [Event.endFeature] = t.endFeature := fun t => rfl
  rw [e1, runEvents_append]
  by_cases hc : SUPPORTED_FEATURES.contains b.name = true
  · have hm : b.name ∈ SUPPORTED_FEATURES := by simpa using hc
    rw [beginFeature_supported_eq s b.name b.requireCmds hc]
    rw [runElems_supported _ b.elems rfl]
    rw [e2]
    rw [endFeature_supported_eq _ rfl]
    simp [blockCalls, hc, hm, List.map_map, Function.comp, List.append_assoc,
      guardBlockModule, deliverAll]
  · simp only [Bool.not_eq_true] at hc
    have hm : b.name ∉ SUPPORTED_FEATURES := by simpa using hc
    rw [beginFeature_unsupported_eq s b.name b.requireCmds hc h]
    rw [runElems_unsupported _ b.elems h]
    rw [e2]
    rw [endFeature_unsupported_eq _ (by exact h)]
    rcases s with ⟨mods, ws, fs, sw, cls, lg, se, sem, g1, g2, g3⟩
    simp only [GenState.featureSupported] at h
    subst h
    simp [blockCalls, hm]

/-- Master lemma for a list of blocks. -/
lemma runBlocks_eq (s : GenState) (bs : List FeatureBlock) (h : s.featureSupported = false) :
    runBlocks s bs =
      { s with
        featureSupported := false,
        supportedWrappers := swAfter bs s.supportedWrappers,
        modules := s.modules.map (fun nm => (nm.1, guardScriptModule bs nm.2)),
        calls := s.calls ++ tracesCalls s.wrappers bs } := by
  induction bs generalizing s with
  | nil =>
    rcases s with ⟨mods, ws, fs, sw, cls, lg, se, sem, g1, g2, g3⟩
    simp only [GenState.featureSupported] at h
    subst h
    simp [runBlocks, swAfter, tracesCalls, guardScriptModule]
  | cons b tl ih =>
    show runBlocks (runBlock s b) tl = _
    rw [runBlock_eq s b h]
    rw [ih _ rfl]
    have gsmc : ∀ m : Module, guardScriptModule (b :: tl) m =
        guardScriptModule tl
          (if SUPPORTED_FEATURES.contains b.name then guardBlockModule b.name m else m) :=
      fun m => rfl
    by_cases hc : SUPPORTED_FEATURES.contains b.name = true
    · have hm : b.name ∈ SUPPORTED_FEATURES := by simpa using hc
      simp [hc, hm, swAfter, tracesCalls, gsmc, List.map_map, Function.comp, List.append_assoc]
    · simp only [Bool.not_eq_true] at hc
      have hm : b.name ∉ SUPPORTED_FEATURES := by simpa using hc
      simp [hc, hm, swAfter, tracesCalls, gsmc, List.append_assoc]

/-- A module that never passes the guard condition is untouched by any
traversal. -/
lemma guardScriptModule_of_not_guard (bs : List FeatureBlock) (m : Module)
    (h : guardCond m = false) : guardScriptModule bs m = m := by
  induction bs with
  | nil => rfl
  | cons b tl ih =>
    unfold guardScriptModule
    split
    · rw [guardBlockModule_of_not_guard _ _ h, ih]
    · rw [ih]

/-- Buffer characterization: a guarded, unsuppressed module accumulates
exactly one open/close guard pair per supported feature, in feature order,
in both buffers. -/
lemma guardScriptModule_bufs (bs : List FeatureBlock) (m : Module)
    (hi : m.isCerealModule = true) (hg : m.suppressFeatureGuards = false)
    (hs : m.suppress = false) :
    (guardScriptModule bs m).headerBuf = m.headerBuf ++ guardScript (supportedNames bs) ∧
    (guardScriptModule bs m).implBuf = m.implBuf ++ guardScript (supportedNames bs) := by
  induction bs generalizing m with
  | nil => simp [guardScriptModule, guardScript, supportedNames]
  | cons b tl ih =>
    have hgc : guardCond m = true := by simp [guardCond, hi, hg]
    by_cases hc : SUPPORTED_FEATURES.contains b.name = true
    · have hm : b.name ∈ SUPPORTED_FEATURES := by simpa using hc
      have e : guardScriptModule (b :: tl) m = guardScriptModule tl (guardBlockModule b.name m) := by
        show guardScriptModule tl _ = _
        rw [if_pos hc]
      rw [e, guardBlockModule_of_guard b.name m hgc hs]
      have ih2 := ih { m with headerBuf := m.headerBuf ++ [gOpen b.name, gClose],
                              implBuf := m.implBuf ++ [gOpen b.name, gClose] }
        (by simpa using hi) (by simpa using hg) (by simpa using hs)
      rw [ih2.1, ih2.2]
      have hn : supportedNames (b :: tl) = b.name :: supportedNames tl := by
        simp [supportedNames, hm]
      rw [hn]
      simp [guardScript, List.append_assoc]
    · simp only [Bool.not_eq_true] at hc
      have hm : b.name ∉ SUPPORTED_FEATURES := by simpa using hc
      have e : guardScriptModule (b :: tl) m = guardScriptModule tl m := by
        show guardScriptModule tl _ = _
        rw [if_neg (by simpa using hm)]
      have hn : supportedNames (b :: tl) = supportedNames tl := by
        simp [supportedNames, hm]
      rw [e, hn]
      exact ih m hi hg hs

/-- `List.lookup` through a per-entry map that keeps keys. -/
lemma lookup_map_snd (g : String → Module → Module) (l : List (String × Module)) (M : String) :
    List.lookup M (l.map (fun nm => (nm.1, g nm.1 nm.2))) = (List.lookup M l).map (g M) := by
  induction l with
  | nil => rfl
  | cons a tl ih =>
    by_cases hb : (M == a.1) = true
    · have he : M = a.1 := eq_of_beq hb
      simp [List.lookup, hb, he]
    · simp only [Bool.not_eq_true] at hb
      simp [List.lookup, hb, ih]

/-- A successful `List.lookup` result is a member of the list. -/
lemma lookup_mem {l : List (String × Module)} {k : String} {v : Module}
    (h : List.lookup k l = some v) : (k, v) ∈ l := by
  induction l with
  | nil => simp [List.lookup] at h
  | cons a tl ih =>
    by_cases hb : (k == a.1) = true
    · have he : k = a.1 := eq_of_beq hb
      rw [show a = (a.1, a.2) from rfl, List.lookup] at h
      simp [hb] at h
      subst he
      rw [← h]
      exact List.mem_cons_self _ _
    · simp only [Bool.not_eq_true] at hb
      rw [show a = (a.1, a.2) from rfl, List.lookup] at h
      simp [hb] at h
      right
      exact ih h

/-! Registry-content lemmas for claim C2. -/

lemma registryTypeNames_append (l1 l2 : List Call) :
    registryTypeNames (l1 ++ l2) = registryTypeNames l1 ++ registryTypeNames l2 := by
  simp [registryTypeNames, List.filterMap_append]

lemma registryTypeNames_flatMap {α : Type} (f : α → List Call) (l : List α) :
    registryTypeNames (l.flatMap f) = l.flatMap (fun a => registryTypeNames (f a)) := by
  induction l with
  | nil => rfl
  | cons a tl ih => simp [List.flatMap_cons, registryTypeNames_append, ih]

lemma registryTypeNames_elemCalls_one (ws : List Wrapper) (sw : Option (List WrapperKind))
    (e : Elem) : registryTypeNames (elemCalls ws sw e) = typeNamesOf [e] := by
  unfold elemCalls
  rw [registryTypeNames_append]
  rw [show deliverAll ws sw (elemWEvent e) = deliverFrom 0 ws sw (elemWEvent e) from rfl]
  rw [registryTypeNames_deliverFrom]
  cases e <;> simp [registryTypeNames, elemRegEvent, typeNamesOf]

lemma registryTypeNames_elemCalls (ws : List Wrapper) (sw : Option (List WrapperKind))
    (es : List Elem) :
    es.flatMap (fun e => registryTypeNames (elemCalls ws sw e)) = typeNamesOf es := by
  induction es with
  | nil => rfl
  | cons e tl ih =>
    rw [List.flatMap_cons, registryTypeNames_elemCalls_one, ih]
    cases e <;> simp [typeNamesOf]

lemma registryTypeNames_unsup (es : List Elem) :
    registryTypeNames (es.flatMap unsupElemCalls) =
      (typeNamesOf es).filter (fun n => exceptionTypes.contains n) := by
  induction es with
  | nil => rfl
  | cons e tl ih =>
    rw [List.flatMap_cons, registryTypeNames_append, ih]
    cases e with
    | ty n =>
      by_cases hn : exceptionTypes.contains n = true
      · have hm : n ∈ exceptionTypes := by simpa using hn
        simp [unsupElemCalls, hn, hm, registryTypeNames, typeNamesOf]
      · simp only [Bool.not_eq_true] at hn
        have hm : n ∉ exceptionTypes := by simpa using hn
        simp [unsupElemCalls, hn, hm, registryTypeNames, typeNamesOf]
    | st n => simp [unsupElemCalls, registryTypeNames, typeNamesOf]
    | gr n => simp [unsupElemCalls, registryTypeNames, typeNamesOf]
    | en n => simp [unsupElemCalls, registryTypeNames, typeNamesOf]
    | cm n => simp [unsupElemCalls, registryTypeNames, typeNamesOf]

lemma registryTypeNames_deliverAll (ws : List Wrapper) (sw : Option (List WrapperKind))
    (e : WEvent) : registryTypeNames (deliverAll ws sw e) = [] := by
  unfold deliverAll
  exact registryTypeNames_deliverFrom 0 ws sw e

lemma registryTypeNames_blockCalls (ws : List Wrapper) (b : FeatureBlock) :
    registryTypeNames (blockCalls ws b) =
      if SUPPORTED_FEATURES.contains b.name then typeNamesOf b.elems
      else (typeNamesOf b.elems).filter (fun n => exceptionTypes.contains n) := by
  by_cases hc : SUPPORTED_FEATURES.contains b.name = true
  · simp only [blockCalls, hc, if_true]
    rw [registryTypeNames_append, registryTypeNames_append, registryTypeNames_append,
      registryTypeNames_append, registryTypeNames_append]
    rw [registryTypeNames_flatMap, registryTypeNames_flatMap]
    rw [registryTypeNames_elemCalls]
    rw [registryTypeNames_deliverAll, registryTypeNames_deliverAll]
    have h1 : registryTypeNames [Call.registry (RegEvent.beginFeature b.name)] = [] := rfl
    have h2 : registryTypeNames [Call.registry RegEvent.endFeature] = [] := rfl
    simp [registryTypeNames_deliverAll, h1, h2]
  · simp only [Bool.not_eq_true] at hc
    simp only [blockCalls, hc, Bool.false_eq_true, if_false]
    rw [registryTypeNames_unsup]

lemma registryTypeNames_tracesCalls (ws : List Wrapper) (bs : List FeatureBlock) :
    registryTypeNames (tracesCalls ws bs) =
      bs.flatMap (fun b =>
        if SUPPORTED_FEATURES.contains b.name then typeNamesOf b.elems
        else (typeNamesOf b.elems).filter (fun n => exceptionTypes.contains n)) := by
  unfold tracesCalls
  rw [registryTypeNames_flatMap]
  refine List.flatMap_congr ?_
  intro b _
  exact registryTypeNames_blockCalls ws b

/-! Claim theorems. -/

/-- C1: for every registered module that is a `cereal.Module` with feature
guards enabled (`suppressFeatureGuards` false) and not suppressed, each
supported feature of a traversal contributes exactly one `#ifdef <feature>`
line at begin-feature and exactly one matching `#endif` at end-feature to
both the header and the impl buffer, the open preceding the close, guard
pairs of distinct features never interleaved (the accumulated guard text is
literally one adjacent open/close pair per supported feature, in feature
order), and an unsupported feature contributes no guard text to any
module. -/
theorem c1_guard_balance (s : GenState) (bs : List FeatureBlock)
    (h : s.featureSupported = false) : C1Concl s bs := by
  refine ⟨?_, ?_, ?_⟩
  · rw [runBlocks_eq s bs h]
  · intro m hi hg hs
    exact guardScriptModule_bufs bs m hi hg hs
  · intro m hm
    exact guardScriptModule_of_not_guard bs m hm

set_option maxRecDepth 10000 in
/-- Witness for C1 at the concretely constructed generator and a two-block
traversal (one supported feature, one unsupported). -/
theorem c1_guard_balance_witness :
    (constructGenerator true true none).featureSupported = false ∧
    C1Concl (constructGenerator true true none)
      [{ name := "VK_VERSION_1_0", requireCmds := ["vkCreateInstance"],
         elems := [Elem.ty "uint32_t", Elem.cm "vkCreateInstance"] },
       { name := "VK_EXT_not_supported_ext", requireCmds := [],
         elems := [Elem.ty "int", Elem.st "ExtraStruct"] }] :=
  ⟨rfl, c1_guard_balance _ _ rfl⟩

/-- C2: while the active feature is unsupported, a `genType` event is
forwarded to the TypeRegistry and to no wrapper exactly when its name is in
the fixed exception set {int, int64_t, double, VkPresentScalingFlagsEXT,
VkPresentGravityFlagsEXT}; any other name has no effect at all; after a
full traversal the TypeRegistry holds, among types of unsupported features,
records for exactly the exception-set names. -/
theorem c2_exception_policy (s : GenState) (h : s.featureSupported = false) : C2Concl s := by
  constructor
  · intro n
    have hstep := stepElem_unsupported s (Elem.ty n) h
    simp only [GenState.stepElem, unsupElemCalls] at hstep
    rw [hstep]
    by_cases hn : exceptionTypes.contains n = true
    · rw [if_pos hn, if_pos hn]
    · rw [if_neg hn, if_neg hn]
      simp
  · intro bs
    rw [runBlocks_eq s bs h]
    simp only [GenState.calls]
    rw [registryTypeNames_append, registryTypeNames_tracesCalls]

set_option maxRecDepth 10000 in
/-- Witness for C2 at the concretely constructed generator. -/
theorem c2_exception_policy_witness :
    (constructGenerator true true none).featureSupported = false ∧
    C2Concl (constructGenerator true true none) :=
  ⟨rfl, c2_exception_policy _ rfl⟩

/-! Membership lemmas for `blockCalls`, used by claim C3. -/

lemma wrapper_mem_blockCalls {ws : List Wrapper} {b : FeatureBlock}
    (hs : SUPPORTED_FEATURES.contains b.name = true) {j : Nat} {k : WrapperKind} {e2 : WEvent}
    (hmem : Call.wrapper j k e2 ∈ blockCalls ws b) :
    ∃ w, ws.get? j = some w ∧ w.kind = k ∧
      wrapperApplies (List.lookup b.name SUPPORTED_WRAPPERS) k = true := by
  have frome : ∀ ev : WEvent,
      Call.wrapper j k e2 ∈
        deliverAll ws (List.lookup b.name SUPPORTED_WRAPPERS) ev →
      ∃ w, ws.get? j = some w ∧ w.kind = k ∧
        wrapperApplies (List.lookup b.name SUPPORTED_WRAPPERS) k = true := by
    intro ev hin
    obtain ⟨he, d, w, hget, hj, hk, ha⟩ := wrapper_mem_deliverFrom_iff.mp hin
    exact ⟨w, by rw [hj]; simpa using hget, hk, ha⟩
  unfold blockCalls at hmem
  rw [if_pos hs] at hmem
  rcases List.mem_append.mp hmem with h15 | h6
  case inr => exact frome _ h6
  rcases List.mem_append.mp h15 with h14 | h5
  case inr => simp at h5
  rcases List.mem_append.mp h14 with h13 | h4
  case inr =>
    obtain ⟨e, _, hin⟩ := List.mem_flatMap.mp h4
    rcases List.mem_append.mp hin with hra | hrb
    · simp at hra
    · exact frome _ hrb
  rcases List.mem_append.mp h13 with h12 | h3
  case inr =>
    obtain ⟨c, _, hin⟩ := List.mem_flatMap.mp h3
    exact frome _ hin
  rcases List.mem_append.mp h12 with h1 | h2
  case inr => exact frome _ h2
  simp at h1

lemma blockCalls_receivesAll {ws : List Wrapper} {b : FeatureBlock}
    (hs : SUPPORTED_FEATURES.contains b.name = true) {i : Nat} {w : Wrapper}
    (hget : ws.get? i = some w)
    (happ : wrapperApplies (List.lookup b.name SUPPORTED_WRAPPERS) w.kind = true) :
    receivesAllCallbacks ws b i w.kind := by
  have hdel : ∀ e : WEvent,
      Call.wrapper i w.kind e ∈
        deliverAll ws (List.lookup b.name SUPPORTED_WRAPPERS) e := by
    intro e
    exact wrapper_mem_deliverFrom_iff.mpr ⟨rfl, i, w, hget, by omega, rfl, happ⟩
  refine ⟨?_, ?_, ?_, ?_⟩
  · unfold blockCalls
    rw [if_pos hs]
    exact List.mem_append_left _ (List.mem_append_left _ (List.mem_append_left _
      (List.mem_append_left _ (List.mem_append_right _ (hdel _)))))
  · intro c hc
    unfold blockCalls
    rw [if_pos hs]
    refine List.mem_append_left _ (List.mem_append_left _ (List.mem_append_left _
      (List.mem_append_right _ ?_)))
    exact List.mem_flatMap.mpr ⟨c, hc, hdel _⟩
  · intro e he
    unfold blockCalls
    rw [if_pos hs]
    refine List.mem_append_left _ (List.mem_append_left _ (List.mem_append_right _ ?_))
    refine List.mem_flatMap.mpr ⟨e, he, ?_⟩
    unfold elemCalls
    exact List.mem_append_right _ (hdel _)
  · unfold blockCalls
    rw [if_pos hs]
    exact List.mem_append_right _ (hdel _)

/-- C3: for a supported feature with a wrapper-restriction entry, every
callback of the feature (begin-feature, per-require-command, per-element,
end-feature) is delivered only to wrappers whose runtime type is listed, a
registered wrapper of an unlisted type receives zero callbacks for the
feature, a wrapper of a listed type receives all of them; for a supported
feature with no entry, every registered wrapper receives all the
callbacks. -/
theorem c3_wrapper_restriction (s : GenState) (b : FeatureBlock)
    (h : s.featureSupported = false)
    (hs : SUPPORTED_FEATURES.contains b.name = true) : C3Concl s b := by
  refine ⟨?_, ?_, ?_⟩
  · rw [runBlock_eq s b h]
  · intro R hR
    refine ⟨?_, ?_, ?_⟩
    · intro i k e hmem
      obtain ⟨w, _, _, happ⟩ := wrapper_mem_blockCalls hs hmem
      rw [hR] at happ
      exact happ
    · intro i w hget hRk k e hmem
      obtain ⟨w2, hget2, hk2, happ⟩ := wrapper_mem_blockCalls hs hmem
      rw [hget] at hget2
      have hw : w2 = w := by
        injection hget2 with hh
        exact hh.symm
      rw [hR] at happ
      have hkk : R.contains k = true := happ
      rw [hw] at hk2
      rw [← hk2] at hkk
      rw [hkk] at hRk
      cases hRk
    · intro i w hget hk
      refine blockCalls_receivesAll hs hget ?_
      rw [hR]
      exact hk
  · intro hnone i w hget
    refine blockCalls_receivesAll hs hget ?_
    rw [hnone]
    rfl

set_option maxRecDepth 10000 in
/-- Witness for C3 at the constructed generator and the restricted feature
`VK_KHR_surface` (restriction set `[VulkanDispatch]`). -/
theorem c3_wrapper_restriction_witness :
    (constructGenerator true true none).featureSupported = false ∧
    SUPPORTED_FEATURES.contains "VK_KHR_surface" = true ∧
    C3Concl (constructGenerator true true none)
      { name := "VK_KHR_surface", requireCmds := ["vkDestroySurfaceKHR"],
        elems := [Elem.cm "vkDestroySurfaceKHR"] } :=
  ⟨rfl, by decide, c3_wrapper_restriction _ _ rfl (by decide)⟩

/-- C7: for every per-element schema event under a supported feature, the
TypeRegistry callback precedes every wrapper callback of the event, the
wrapper callbacks are delivered in wrapper-registration order (strictly
increasing registration indices, the same index sequence for every event
kind), and only wrappers passing the restriction filter are called. -/
theorem c7_element_order (s : GenState) (h : s.featureSupported = true) : C7Concl s := by
  intro e
  refine ⟨stepElem_supported s e h, deliverFrom_pairwise 0 _ _ _, ?_, ?_⟩
  · intro c hc
    obtain ⟨j, k, hcc, hap, _⟩ := mem_deliverFrom hc
    exact ⟨j, k, hcc, hap⟩
  · intro e2
    exact deliverFrom_idx_map 0 _ _ _ _

set_option maxRecDepth 10000 in
/-- Witness for C7 in the state reached right after a supported
begin-feature on the constructed generator. -/
theorem c7_element_order_witness :
    ((constructGenerator true true none).beginFeature "VK_VERSION_1_0" []).featureSupported
      = true ∧
    C7Concl ((constructGenerator true true none).beginFeature "VK_VERSION_1_0" []) :=
  ⟨rfl, c7_element_order _ rfl⟩

/-! Aggregation lemma for claim C8. -/

lemma foldl_addSrcEntry (t : GenState) (l : List (String × Module)) :
    ((l.foldl (fun acc nm => acc.addSrcEntry nm.2) t).guestAndroidMkCppFiles =
      t.guestAndroidMkCppFiles ++
        (l.filter (fun nm => nm.2.directory == "guest_encoder")).filterMap
          (fun nm => nm.2.srcEntry)) ∧
    ((l.foldl (fun acc nm => acc.addSrcEntry nm.2) t).hostDecoderCMakeCppFiles =
      t.hostDecoderCMakeCppFiles ++
        (l.filter (fun nm =>
          !(nm.2.directory == "guest_encoder") && nm.2.directory == "host")).filterMap
          (fun nm => nm.2.srcEntry)) ∧
    ((l.foldl (fun acc nm => acc.addSrcEntry nm.2) t).hostCMakeCppFiles =
      t.hostCMakeCppFiles ++
        (l.filter (fun nm =>
          !(nm.2.directory == "guest_encoder") && !(nm.2.directory == "host"))).filterMap
          (fun nm => nm.2.srcEntry)) := by
  induction l generalizing t with
  | nil => simp
  | cons nm tl ih =>
    simp only [List.foldl_cons]
    obtain ⟨ih1, ih2, ih3⟩ := ih (t.addSrcEntry nm.2)
    by_cases hg : (nm.2.directory == "guest_encoder") = true
    · refine ⟨?_, ?_, ?_⟩
      · rw [ih1]
        have ha : (t.addSrcEntry nm.2).guestAndroidMkCppFiles =
            t.guestAndroidMkCppFiles ++ nm.2.srcEntry.toList := by
          unfold GenState.addSrcEntry
          rw [if_pos hg]
        rw [ha]
        cases hsrc : nm.2.srcEntry <;> simp [List.filter_cons, hg, hsrc]
      · rw [ih2]
        have ha : (t.addSrcEntry nm.2).hostDecoderCMakeCppFiles =
            t.hostDecoderCMakeCppFiles := by
          unfold GenState.addSrcEntry
          rw [if_pos hg]
        rw [ha]
        simp [List.filter_cons, hg]
      · rw [ih3]
        have ha : (t.addSrcEntry nm.2).hostCMakeCppFiles = t.hostCMakeCppFiles := by
          unfold GenState.addSrcEntry
          rw [if_pos hg]
        rw [ha]
        simp [List.filter_cons, hg]
    · by_cases hh : (nm.2.directory == "host") = true
      · refine ⟨?_, ?_, ?_⟩
        · rw [ih1]
          have ha : (t.addSrcEntry nm.2).guestAndroidMkCppFiles =
              t.guestAndroidMkCppFiles := by
            unfold GenState.addSrcEntry
            rw [if_neg hg, if_pos hh]
          rw [ha]
          simp [List.filter_cons, hg]
        · rw [ih2]
          have ha : (t.addSrcEntry nm.2).hostDecoderCMakeCppFiles =
              t.hostDecoderCMakeCppFiles ++ nm.2.srcEntry.toList := by
            unfold GenState.addSrcEntry
            rw [if_neg hg, if_pos hh]
          rw [ha]
          have hgb : (nm.2.directory == "guest_encoder") = false := by
            simpa using hg
          cases hsrc : nm.2.srcEntry <;> simp [List.filter_cons, hgb, hh, hsrc]
        · rw [ih3]
          have ha : (t.addSrcEntry nm.2).hostCMakeCppFiles = t.hostCMakeCppFiles := by
            unfold GenState.addSrcEntry
            rw [if_neg hg, if_pos hh]
          rw [ha]
          have hgb : (nm.2.directory == "guest_encoder") = false := by
            simpa using hg
          simp [List.filter_cons, hgb, hh]
      · refine ⟨?_, ?_, ?_⟩
        · rw [ih1]
          have ha : (t.addSrcEntry nm.2).guestAndroidMkCppFiles =
              t.guestAndroidMkCppFiles := by
            unfold GenState.addSrcEntry
            rw [if_neg hg, if_neg hh]
          rw [ha]
          simp [List.filter_cons, hg]
        · rw [ih2]
          have ha : (t.addSrcEntry nm.2).hostDecoderCMakeCppFiles =
              t.hostDecoderCMakeCppFiles := by
            unfold GenState.addSrcEntry
            rw [if_neg hg, if_neg hh]
          rw [ha]
          have hhb : (nm.2.directory == "host") = false := by simpa using hh
          simp [List.filter_cons, hhb]
        · rw [ih3]
          have ha : (t.addSrcEntry nm.2).hostCMakeCppFiles =
              t.hostCMakeCppFiles ++ nm.2.srcEntry.toList := by
            unfold GenState.addSrcEntry
            rw [if_neg hg, if_neg hh]
          rw [ha]
          have hgb : (nm.2.directory == "guest_encoder") = false := by
            simpa using hg
          have hhb : (nm.2.directory == "host") = false := by simpa using hh
          cases hsrc : nm.2.srcEntry <;> simp [List.filter_cons, hgb, hhb, hsrc]

set_option maxRecDepth 100000 in
/-- C4, counterexample: registering a wrapper under an unknown module name
does not abort the run.  On the constructed generator, the call leaves the
wrapper registry, module registry and call log unchanged, appends only a
diagnostic to the log, and a subsequent feature block is still processed
normally (new calls are delivered), contradicting the claim that the run
aborts before traversal. -/
theorem c4_counterexample :
    ((constructGenerator true true none).addWrapper WrapperKind.vulkanDispatch
        "no_such_module").wrappers = (constructGenerator true true none).wrappers ∧
    ((constructGenerator true true none).addWrapper WrapperKind.vulkanDispatch
        "no_such_module").log =
      (constructGenerator true true none).log ++
        [LogMsg.unknownModule "no_such_module" (constructGenerator true true none).moduleNames] ∧
    ((constructGenerator true true none).addWrapper WrapperKind.vulkanDispatch
        "no_such_module").modules = (constructGenerator true true none).modules ∧
    (runBlock ((constructGenerator true true none).addWrapper WrapperKind.vulkanDispatch
        "no_such_module")
      { name := "VK_VERSION_1_0", requireCmds := [], elems := [Elem.cm "vkCreateInstance"] }).calls
      ≠ ((constructGenerator true true none).addWrapper WrapperKind.vulkanDispatch
        "no_such_module").calls := by
  refine ⟨by decide, by decide, by decide, by decide⟩

/-- C4, amended: `addWrapper` with a module name absent from the module
registry reports the problem (prints a diagnostic naming the module and the
known modules) and drops the binding; everything else in the state is
unchanged and the run continues without that wrapper. -/
theorem c4_amended (s : GenState) (k : WrapperKind) (n : String)
    (h : s.moduleNames.contains n = false) :
    s.addWrapper k n = { s with log := s.log ++ [LogMsg.unknownModule n s.moduleNames] } := by
  unfold GenState.addWrapper
  rw [if_pos (show (!(s.moduleNames.contains n)) = true by rw [h]; rfl)]

set_option maxRecDepth 10000 in
/-- Witness for the amended C4 at the constructed generator. -/
theorem c4_amended_witness :
    (constructGenerator true true none).moduleNames.contains "no_such_module" = false ∧
    (constructGenerator true true none).addWrapper WrapperKind.vulkanDispatch "no_such_module"
      = { constructGenerator true true none with
          log := (constructGenerator true true none).log ++
            [LogMsg.unknownModule "no_such_module"
              (constructGenerator true true none).moduleNames] } :=
  ⟨by decide, c4_amended _ _ _ (by decide)⟩

set_option maxRecDepth 100000 in
/-- C5, counterexample: an end-feature event arriving with no active
supported feature is silently ignored — the state (buffers, call log,
everything) is completely unchanged and no error of any kind is raised —
and a malformed traversal with two unclosed begin-feature events emits
unbalanced guard text (two `#ifdef` lines, one `#endif`) while processing
continues, contradicting the claimed depth tracking and fatal abort. -/
theorem c5_counterexample :
    (constructGenerator true true none).stepEvent Event.endFeature
      = constructGenerator true true none ∧
    (List.lookup "goldfish_vk_marshaling"
        (runEvents (constructGenerator true true none)
          [Event.beginFeature "VK_VERSION_1_0" [], Event.beginFeature "VK_VERSION_1_1" [],
           Event.endFeature]).modules).map Module.headerBuf =
      some ["#ifdef VK_VERSION_1_0\n", "#ifdef VK_VERSION_1_1\n", "#endif\n"] := by
  refine ⟨by decide, by decide⟩

/-- C5, amended: the generator tracks only the boolean `featureSupported`
flag, not an active-feature depth; an end-feature event without a matching
begin-feature of a supported feature returns silently with the state
unchanged, and no error is raised (the handler is total). -/
theorem c5_amended (s : GenState) (h : s.featureSupported = false) :
    s.stepEvent Event.endFeature = s :=
  endFeature_unsupported_eq s h

set_option maxRecDepth 10000 in
/-- Witness for the amended C5 at the constructed generator. -/
theorem c5_amended_witness :
    (constructGenerator true true none).featureSupported = false ∧
    (constructGenerator true true none).stepEvent Event.endFeature
      = constructGenerator true true none :=
  ⟨rfl, c5_amended _ rfl⟩

set_option maxRecDepth 100000 in
/-- C8, counterexample: the aggregation produces three build-fragment
accumulators, not two; no choice of two of them jointly lists every
non-suppressed module's implementation entry on the constructed generator
(for instance `VkDecoder.cpp` appears only in the host-decoder CMake
bucket, `VkEncoder.cpp` only in the guest Android.mk bucket and
`goldfish_vk_marshaling.cpp` only in the default CMake bucket). -/
theorem c8_counterexample :
    ¬((∀ e ∈ implEntries (constructGenerator true true none),
        e ∈ (constructGenerator true true none).guestAndroidMkCppFiles ++
            (constructGenerator true true none).hostCMakeCppFiles) ∨
      (∀ e ∈ implEntries (constructGenerator true true none),
        e ∈ (constructGenerator true true none).guestAndroidMkCppFiles ++
            (constructGenerator true true none).hostDecoderCMakeCppFiles) ∨
      (∀ e ∈ implEntries (constructGenerator true true none),
        e ∈ (constructGenerator true true none).hostCMakeCppFiles ++
            (constructGenerator true true none).hostDecoderCMakeCppFiles)) := by
  decide

/-- C8, amended: build-fragment aggregation routes each module's
implementation entry into exactly the one of the `three` accumulators
selected by its directory tag (`guest_encoder` → Android.mk bucket,
`host` → host-decoder CMake bucket, every other tag → default CMake
bucket); a suppressed or header-only module contributes no entry to any
bucket; the three buckets together list every emitted implementation
entry. -/
theorem c8_amended (s : GenState) :
    ((s.aggregateSrcEntries).guestAndroidMkCppFiles =
      s.guestAndroidMkCppFiles ++
        (s.modules.filter (fun nm => nm.2.directory == "guest_encoder")).filterMap
          (fun nm => nm.2.srcEntry)) ∧
    ((s.aggregateSrcEntries).hostDecoderCMakeCppFiles =
      s.hostDecoderCMakeCppFiles ++
        (s.modules.filter (fun nm =>
          !(nm.2.directory == "guest_encoder") && nm.2.directory == "host")).filterMap
          (fun nm => nm.2.srcEntry)) ∧
    ((s.aggregateSrcEntries).hostCMakeCppFiles =
      s.hostCMakeCppFiles ++
        (s.modules.filter (fun nm =>
          !(nm.2.directory == "guest_encoder") && !(nm.2.directory == "host"))).filterMap
          (fun nm => nm.2.srcEntry)) ∧
    (∀ m : Module, m.suppress = true → m.srcEntry = none) ∧
    (∀ m : Module, m.headerOnly = true → m.srcEntry = none) := by
  refine ⟨(foldl_addSrcEntry s s.modules).1, (foldl_addSrcEntry s s.modules).2.1,
    (foldl_addSrcEntry s s.modules).2.2, ?_, ?_⟩
  · intro m hm
    unfold Module.srcEntry
    rw [if_pos (by rw [hm]; rfl)]
  · intro m hm
    unfold Module.srcEntry
    rw [if_pos (by rw [hm]; simp)]

/-- Witness for the amended C8 at the constructed generator. -/
theorem c8_amended_witness :
    ((constructGenerator true true none).aggregateSrcEntries).guestAndroidMkCppFiles =
      (constructGenerator true true none).guestAndroidMkCppFiles ++
        ((constructGenerator true true none).modules.filter
          (fun nm => nm.2.directory == "guest_encoder")).filterMap
          (fun nm => nm.2.srcEntry) :=
  (c8_amended (constructGenerator true true none)).1

set_option maxRecDepth 100000 in
/-- C9: constructing the generator with the guest encoder destination
directory missing registers only the common and host modules (all nine
`addGuestEncoderModule` calls return after printing a skip diagnostic,
raising nothing), and every subsequent `addWrapper` naming one of the
absent guest modules is likewise dropped with a diagnostic, so exactly the
thirteen host/common modules and the thirteen wrappers bound to them
remain. -/
theorem c9_guest_dir_missing :
    (constructGenerator false true none).moduleNames =
      ["goldfish_vk_extension_structs", "goldfish_vk_marshaling",
       "goldfish_vk_reserved_marshaling", "goldfish_vk_deepcopy", "goldfish_vk_handlemap",
       "goldfish_vk_dispatch", "goldfish_vk_transform", "VkDecoder", "VkDecoderSnapshot",
       "VkSubDecoder", "ApiLogDecoder", "vulkan_gfxstream_structure_type_host",
       "vk_android_native_buffer_structure_type"] ∧
    (constructGenerator false true none).wrappers =
      [{ kind := WrapperKind.vulkanExtensionStructs, moduleName := "goldfish_vk_extension_structs" },
       { kind := WrapperKind.vulkanMarshaling, moduleName := "goldfish_vk_marshaling" },
       { kind := WrapperKind.vulkanReservedMarshaling, moduleName := "goldfish_vk_reserved_marshaling" },
       { kind := WrapperKind.vulkanDeepcopy, moduleName := "goldfish_vk_deepcopy" },
       { kind := WrapperKind.vulkanHandleMap, moduleName := "goldfish_vk_handlemap" },
       { kind := WrapperKind.vulkanDispatch, moduleName := "goldfish_vk_dispatch" },
       { kind := WrapperKind.vulkanTransform, moduleName := "goldfish_vk_transform" },
       { kind := WrapperKind.vulkanDecoder, moduleName := "VkDecoder" },
       { kind := WrapperKind.vulkanDecoderSnapshot, moduleName := "VkDecoderSnapshot" },
       { kind := WrapperKind.vulkanSubDecoder, moduleName := "VkSubDecoder" },
       { kind := WrapperKind.apiLogDecoder, moduleName := "ApiLogDecoder" },
       { kind := WrapperKind.vulkanGfxstreamStructureType,
         moduleName := "vulkan_gfxstream_structure_type_host" },
       { kind := WrapperKind.vulkanAndroidNativeBufferStructureType,
         moduleName := "vk_android_native_buffer_structure_type" }] ∧
    (constructGenerator false true none).log =
      List.replicate 9 LogMsg.guestPathSkip ++
        ["VkEncoder", "goldfish_vk_extension_structs_guest", "goldfish_vk_marshaling_guest",
         "goldfish_vk_reserved_marshaling_guest", "goldfish_vk_deepcopy_guest",
         "goldfish_vk_counting_guest", "goldfish_vk_transform_guest", "func_table",
         "vulkan_gfxstream_structure_type_guest"].map
          (fun n => LogMsg.unknownModule n (constructGenerator false true none).moduleNames) := by
  refine ⟨by decide, by decide, by decide⟩

/-! Lemmas about `beginFile`, `endFile` and `runFull`, used by claim C6. -/

lemma endFile_modules (s : GenState) : s.endFile.modules = s.modules := rfl

lemma beginFile_featureSupported (s : GenState) :
    s.beginFile.featureSupported = s.featureSupported := by
  unfold GenState.beginFile
  by_cases hse : s.suppressEnabled = true
  · simp [hse]
  · simp [hse]

lemma beginFile_wrappers (s : GenState) : s.beginFile.wrappers = s.wrappers := by
  unfold GenState.beginFile
  by_cases hse : s.suppressEnabled = true
  · simp [hse]
  · simp [hse]

lemma beginFile_modules_nosuppress (s : GenState) (h : s.suppressEnabled = false) :
    s.beginFile.modules = s.modules := by
  unfold GenState.beginFile
  simp [h]

lemma beginFile_modules_suppress (s : GenState) (M : String)
    (hse : s.suppressEnabled = true) (hsem : s.suppressExceptModule = some M) :
    s.beginFile.modules = s.modules.map (fun nm =>
      (nm.1, if nm.1 == M then { nm.2 with suppress := false }
             else { nm.2 with suppress := true })) := by
  unfold GenState.beginFile
  simp only [hse, if_true, hsem]
  rw [List.map_map]
  refine List.map_congr_left ?_
  intro nm _
  rcases nm with ⟨n, m⟩
  by_cases hb : (n == M) = true
  · have hsome : ((some n == some M) : Bool) = (n == M) := rfl
    simp [Function.comp, hsome, hb]
  · simp only [Bool.not_eq_true] at hb
    have hsome : ((some n == some M) : Bool) = (n == M) := rfl
    simp [Function.comp, hsome, hb]

lemma suppress_update_id (m : Module) (h : m.suppress = false) :
    { m with suppress := false } = m := by
  cases m
  simp only [Module.suppress] at h
  rw [h]

set_option maxRecDepth 100000 in
/-- C6: when the suppression switch names a registered module `M`, at
begin-file every registered module other than `M` is marked suppressed and
`M` is not; after a full traversal every module other than `M` emits zero
bytes, and `M`'s emitted output is byte-identical to `M`'s output in the
unsuppressed full run over the same schema input (suppression changes which
modules accept writes, never the control flow). -/
theorem c6_suppression_isolation (M : String)
    (hne : (M == "") = false)
    (hM : (constructGenerator true true (some M)).moduleNames.contains M = true)
    (bs : List FeatureBlock) : C6Concl M bs := by
  have hini : initSuppress (some M) = (true, some M) := by
    show (if (M == "") = true then ((false, none) : Bool × Option String)
          else (true, some M)) = (true, some M)
    rw [if_neg (by simp [hne])]
  have hse : (constructGenerator true true (some M)).suppressEnabled = true := by
    show (initSuppress (some M)).1 = true
    rw [hini]
  have hsem : (constructGenerator true true (some M)).suppressExceptModule = some M := by
    show (initSuppress (some M)).2 = some M
    rw [hini]
  have hmodC : (constructGenerator true true (some M)).modules =
      (constructRegistries true true).modules := rfl
  have hbm := beginFile_modules_suppress (constructGenerator true true (some M)) M hse hsem
  rw [hmodC] at hbm
  have hfs : ((constructGenerator true true (some M)).beginFile).featureSupported = false := by
    rw [beginFile_featureSupported]
    rfl
  have hfsN : ((constructGenerator true true none).beginFile).featureSupported = false := by
    rw [beginFile_featureSupported]
    rfl
  have hrunS : (runFull (constructGenerator true true (some M)) bs).modules =
      ((constructGenerator true true (some M)).beginFile).modules.map
        (fun nm => (nm.1, guardScriptModule bs nm.2)) := by
    unfold runFull
    rw [endFile_modules, runBlocks_eq _ bs hfs]
  have hrunN : (runFull (constructGenerator true true none) bs).modules =
      ((constructGenerator true true none).beginFile).modules.map
        (fun nm => (nm.1, guardScriptModule bs nm.2)) := by
    unfold runFull
    rw [endFile_modules, runBlocks_eq _ bs hfsN]
  refine ⟨?_, ?_, ?_, ?_⟩
  · intro p hp hne2
    rw [hbm] at hp
    obtain ⟨q, _, hq⟩ := List.mem_map.mp hp
    subst hq
    have hb : (q.1 == M) = false := by
      cases hqe : (q.1 == M)
      · rfl
      · exfalso
        exact hne2 (eq_of_beq hqe)
    show (if (q.1 == M) = true then { q.2 with suppress := false }
          else { q.2 with suppress := true }).suppress = true
    rw [hb]
    simp
  · intro p hp heq
    rw [hbm] at hp
    obtain ⟨q, _, hq⟩ := List.mem_map.mp hp
    subst hq
    have hb : (q.1 == M) = true := by simpa using heq
    show (if (q.1 == M) = true then { q.2 with suppress := false }
          else { q.2 with suppress := true }).suppress = false
    rw [hb]
    simp
  · intro p hp hne2
    rw [hrunS, hbm, List.map_map] at hp
    obtain ⟨r, _, hfr⟩ := List.mem_map.mp hp
    subst hfr
    have hb : (r.1 == M) = false := by
      cases hqe : (r.1 == M)
      · rfl
      · exfalso
        exact hne2 (eq_of_beq hqe)
    show Module.emitOutput (guardScriptModule bs
      (if (r.1 == M) = true then { r.2 with suppress := false }
       else { r.2 with suppress := true })) = none
    rw [hb, if_neg (by simp : ¬(false = true))]
    have hsup : (guardScriptModule bs { r.2 with suppress := true }).suppress = true := by
      rw [guardScriptModule_suppress]
    unfold Module.emitOutput
    simp [hsup]
  · rw [hrunS, hrunN, hbm,
      beginFile_modules_nosuppress _
        (show (constructGenerator true true none).suppressEnabled = false from rfl)]
    have hCN : (constructGenerator true true none).modules =
        (constructRegistries true true).modules := rfl
    rw [hCN, List.map_map]
    have hcomp : ((fun nm : String × Module => (nm.1, guardScriptModule bs nm.2)) ∘
        (fun nm : String × Module =>
          (nm.1, if nm.1 == M then { nm.2 with suppress := false }
                 else { nm.2 with suppress := true }))) =
        (fun nm : String × Module =>
          (nm.1, guardScriptModule bs
            (if nm.1 == M then { nm.2 with suppress := false }
             else { nm.2 with suppress := true }))) := by
      funext nm
      rfl
    rw [hcomp]
    rw [lookup_map_snd (fun n m => guardScriptModule bs
      (if n == M then { m with suppress := false } else { m with suppress := true }))]
    rw [lookup_map_snd (fun n m => guardScriptModule bs m)]
    cases hlk : List.lookup M (constructRegistries true true).modules with
    | none => rfl
    | some m =>
      have hmem := lookup_mem hlk
      have hall : ∀ p ∈ (constructRegistries true true).modules, p.2.suppress = false := by
        decide
      have hsupC : m.suppress = false := hall (M, m) hmem
      show some (Module.emitOutput (guardScriptModule bs
          (if (M == M) = true then { m with suppress := false }
           else { m with suppress := true }))) =
        some (Module.emitOutput (guardScriptModule bs m))
      rw [if_pos (by simp : (M == M) = true)]
      rw [suppress_update_id m hsupC]

set_option maxRecDepth 10000 in
/-- Witness for C6 at the module `goldfish_vk_marshaling` and a small
two-block traversal. -/
theorem c6_suppression_isolation_witness :
    ("goldfish_vk_marshaling" == "") = false ∧
    (constructGenerator true true
        (some "goldfish_vk_marshaling")).moduleNames.contains "goldfish_vk_marshaling" = true ∧
    C6Concl "goldfish_vk_marshaling"
      [{ name := "VK_VERSION_1_0", requireCmds := [], elems := [Elem.st "VkExtent2D"] },
       { name := "VK_EXT_not_supported_ext", requireCmds := [], elems := [Elem.ty "int"] }] :=
  ⟨by decide, by decide, c6_suppression_isolation _ (by decide) (by decide) _⟩

end Gfxstream

namespace Genvk

/-- Appending to the first `require` child rewrites exactly the element
that `find?` returns. -/
lemma find_appendToFirstRequire (cs extra : List XElem) (r : XElem)
    (h : cs.find? (fun c => c.tag == "require") = some r) :
    (appendToFirstRequire cs extra).find? (fun c => c.tag == "require") =
      some (XElem.mk r.eid r.tag r.attrs (r.children ++ extra)) := by
  induction cs with
  | nil => simp [List.find?] at h
  | cons c tl ih =>
    by_cases hc : (c.tag == "require") = true
    · have hfc : List.find? (fun c2 : XElem => c2.tag == "require") (c :: tl) = some c := by
        simp [List.find?, hc]
      rw [hfc] at h
      have hrc : c = r := by injection h
      subst hrc
      unfold appendToFirstRequire
      rw [if_pos hc]
      have hc2 : ((XElem.mk c.eid c.tag c.attrs (c.children ++ extra)).tag == "require")
          = true := hc
      simp [List.find?, hc2]
    · have hcb : (c.tag == "require") = false := by simpa using hc
      have hfc : List.find? (fun c2 : XElem => c2.tag == "require") (c :: tl) =
          List.find? (fun c2 : XElem => c2.tag == "require") tl := by
        simp [List.find?, hcb]
      rw [hfc] at h
      unfold appendToFirstRequire
      rw [if_neg (by simp [hcb])]
      have hfc2 : List.find? (fun c2 : XElem => c2.tag == "require")
          (c :: appendToFirstRequire tl extra) =
          List.find? (fun c2 : XElem => c2.tag == "require") (appendToFirstRequire tl extra) := by
        simp [List.find?, hcb]
      rw [hfc2]
      exact ih h

/-- C10: the gfxstream registry merge in genvk.py appends a
gfxstream entry whose key (name attribute, or the identity of the
`proto`/`name` element that `getEntryName` returns for commands) is absent
from the base section; merges an `extensions` entry with an existing key by
copying its attributes over the original and appending its `require`
children to the original's `require` block; and replaces a `types` entry
with an existing key entirely, rebuilding it from the gfxstream entry. -/
theorem c10_registry_merge : C10Concl := by
  refine ⟨?_, ?_, ?_⟩
  · intro sec base cur e k hk hlk
    have hidx : mergeEntryIdx (buildEntryDict base) e = none := by
      unfold mergeEntryIdx
      rw [hk]
      exact hlk
    unfold mergeEntry
    rw [hidx]
  · intro base cur e k i orig hk hlk hget hreq
    have hidx : mergeEntryIdx (buildEntryDict base) e = some i := by
      unfold mergeEntryIdx
      rw [hk]
      exact hlk
    cases hfe : xFind "require" e with
    | none =>
      refine ⟨XElem.mk orig.eid orig.tag (mergeAttrs orig.attrs e.attrs) orig.children,
        ?_, ?_, rfl, rfl, rfl, ?_, ?_⟩
      · show (match xFind "require" e with
          | none => some (XElem.mk orig.eid orig.tag (mergeAttrs orig.attrs e.attrs)
              orig.children)
          | some req =>
            match xFind "require" (XElem.mk orig.eid orig.tag
                (mergeAttrs orig.attrs e.attrs) orig.children) with
            | none => none
            | some _ => some (XElem.mk orig.eid orig.tag (mergeAttrs orig.attrs e.attrs)
                (appendToFirstRequire orig.children req.children))) = _
        rw [hfe]
      · unfold mergeEntry
        rw [hidx]
        show (if (("extensions" : String) == "extensions") = true then
            match cur.get? i with
            | none => none
            | some orig2 => (extendExtension orig2 e).map (fun e2 => cur.set i e2)
          else if (("extensions" : String) == "types") = true then
            match cur.get? i with
            | none => none
            | some orig2 => some (cur.set i (replaceType orig2 e))
          else some cur) = _
        rw [if_pos (by decide : (("extensions" : String) == "extensions") = true)]
        rw [hget]
        show ((extendExtension orig e).map (fun e2 => cur.set i e2)) = _
        have hext : extendExtension orig e =
            some (XElem.mk orig.eid orig.tag (mergeAttrs orig.attrs e.attrs)
              orig.children) := by
          show (match xFind "require" e with
            | none => some (XElem.mk orig.eid orig.tag (mergeAttrs orig.attrs e.attrs)
                orig.children)
            | some req =>
              match xFind "require" (XElem.mk orig.eid orig.tag
                  (mergeAttrs orig.attrs e.attrs) orig.children) with
              | none => none
              | some _ => some (XElem.mk orig.eid orig.tag (mergeAttrs orig.attrs e.attrs)
                  (appendToFirstRequire orig.children req.children))) = _
          rw [hfe]
        rw [hext]
        rfl
      · intro req hreqe
        cases hreqe
      · intro _
        rfl
    | some req =>
      have hsome : (xFind "require" orig).isSome = true := by
        apply hreq
        rw [hfe]
        rfl
      cases hfo : xFind "require" orig with
      | none => rw [hfo] at hsome; cases hsome
      | some r =>
        have hfo1 : xFind "require"
            (XElem.mk orig.eid orig.tag (mergeAttrs orig.attrs e.attrs) orig.children) =
            some r := hfo
        have hext : extendExtension orig e =
            some (XElem.mk orig.eid orig.tag (mergeAttrs orig.attrs e.attrs)
              (appendToFirstRequire orig.children req.children)) := by
          show (match xFind "require" e with
            | none => some (XElem.mk orig.eid orig.tag (mergeAttrs orig.attrs e.attrs)
                orig.children)
            | some req2 =>
              match xFind "require" (XElem.mk orig.eid orig.tag
                  (mergeAttrs orig.attrs e.attrs) orig.children) with
              | none => none
              | some _ => some (XElem.mk orig.eid orig.tag (mergeAttrs orig.attrs e.attrs)
                  (appendToFirstRequire orig.children req2.children))) = _
          rw [hfe, hfo1]
        refine ⟨XElem.mk orig.eid orig.tag (mergeAttrs orig.attrs e.attrs)
          (appendToFirstRequire orig.children req.children), hext, ?_, rfl, rfl, rfl, ?_, ?_⟩
        · unfold mergeEntry
          rw [hidx]
          show (if (("extensions" : String) == "extensions") = true then
              match cur.get? i with
              | none => none
              | some orig2 => (extendExtension orig2 e).map (fun e2 => cur.set i e2)
            else if (("extensions" : String) == "types") = true then
              match cur.get? i with
              | none => none
              | some orig2 => some (cur.set i (replaceType orig2 e))
            else some cur) = _
          rw [if_pos (by decide : (("extensions" : String) == "extensions") = true)]
          rw [hget]
          show ((extendExtension orig e).map (fun e2 => cur.set i e2)) = _
          rw [hext]
          rfl
        · intro req2 hreq2
          have hr2 : req = req2 := by injection hreq2
          subst hr2
          refine ⟨rfl, ?_⟩
          intro r2 hr2f
          have hrr : r = r2 := by injection hr2f
          subst hrr
          show (appendToFirstRequire orig.children req.children).find?
            (fun c => c.tag == "require") = _
          exact find_appendToFirstRequire orig.children req.children r hfo
        · intro hnone
          cases hnone
  · intro base cur e k i orig hk hlk hget
    have hidx : mergeEntryIdx (buildEntryDict base) e = some i := by
      unfold mergeEntryIdx
      rw [hk]
      exact hlk
    unfold mergeEntry
    rw [hidx]
    show (if (("types" : String) == "extensions") = true then
        match cur.get? i with
        | none => none
        | some orig2 => (extendExtension orig2 e).map (fun e2 => cur.set i e2)
      else if (("types" : String) == "types") = true then
        match cur.get? i with
        | none => none
        | some orig2 => some (cur.set i (replaceType orig2 e))
      else some cur) = _
    rw [if_neg (by decide : ¬((("types" : String) == "extensions") = true))]
    rw [if_pos (by decide : (("types" : String) == "types") = true)]
    rw [hget]
    rfl

/-- Witness for C10 on three concrete one-entry registries exercising the
append, extension-merge and type-replace paths. -/
theorem c10_registry_merge_witness :
    (getEntryName (XElem.mk 10 "type" [("name", "VkNewType")] []) =
        some (EntryKey.str "VkNewType") ∧
      List.lookup (EntryKey.str "VkNewType")
        (buildEntryDict [XElem.mk 1 "type" [("name", "VkExistingType")] []]) = none ∧
      mergeEntry "types" [XElem.mk 1 "type" [("name", "VkExistingType")] []]
        (buildEntryDict [XElem.mk 1 "type" [("name", "VkExistingType")] []])
        (XElem.mk 10 "type" [("name", "VkNewType")] []) =
        some ([XElem.mk 1 "type" [("name", "VkExistingType")] [],
               XElem.mk 10 "type" [("name", "VkNewType")] []])) ∧
    (∃ merged,
      extendExtension
        (XElem.mk 2 "extension" [("name", "VK_MVK_moltenvk")]
          [XElem.mk 3 "require" [] [XElem.mk 4 "command" [("name", "vkOld")] []]])
        (XElem.mk 20 "extension" [("name", "VK_MVK_moltenvk"), ("number", "124")]
          [XElem.mk 21 "require" [] [XElem.mk 22 "command" [("name", "vkNew")] []]]) =
          some merged ∧
      mergeEntry "extensions"
        [XElem.mk 2 "extension" [("name", "VK_MVK_moltenvk")]
          [XElem.mk 3 "require" [] [XElem.mk 4 "command" [("name", "vkOld")] []]]]
        (buildEntryDict
          [XElem.mk 2 "extension" [("name", "VK_MVK_moltenvk")]
            [XElem.mk 3 "require" [] [XElem.mk 4 "command" [("name", "vkOld")] []]]])
        (XElem.mk 20 "extension" [("name", "VK_MVK_moltenvk"), ("number", "124")]
          [XElem.mk 21 "require" [] [XElem.mk 22 "command" [("name", "vkNew")] []]]) =
        some ([XElem.mk 2 "extension" [("name", "VK_MVK_moltenvk")]
          [XElem.mk 3 "require" [] [XElem.mk 4 "command" [("name", "vkOld")] []]]].set 0
            merged)) ∧
    (mergeEntry "types" [XElem.mk 5 "type" [("name", "VkNativeBufferANDROID")] []]
      (buildEntryDict [XElem.mk 5 "type" [("name", "VkNativeBufferANDROID")] []])
      (XElem.mk 30 "type" [("name", "VkNativeBufferANDROID"), ("structextends", "x")]
        [XElem.mk 31 "member" [] []]) =
      some [XElem.mk 5 "type" [("name", "VkNativeBufferANDROID"), ("structextends", "x")]
        [XElem.mk 31 "member" [] []]]) := by
  refine ⟨⟨rfl, rfl, ?_⟩, ?_, ?_⟩
  · exact c10_registry_merge.1 "types" _ _ _ (EntryKey.str "VkNewType") rfl rfl
  · obtain ⟨merged, hext, hmerge, -⟩ := c10_registry_merge.2.1
      [XElem.mk 2 "extension" [("name", "VK_MVK_moltenvk")]
        [XElem.mk 3 "require" [] [XElem.mk 4 "command" [("name", "vkOld")] []]]]
      [XElem.mk 2 "extension" [("name", "VK_MVK_moltenvk")]
        [XElem.mk 3 "require" [] [XElem.mk 4 "command" [("name", "vkOld")] []]]]
      (XElem.mk 20 "extension" [("name", "VK_MVK_moltenvk"), ("number", "124")]
        [XElem.mk 21 "require" [] [XElem.mk 22 "command" [("name", "vkNew")] []]])
      (EntryKey.str "VK_MVK_moltenvk") 0
      (XElem.mk 2 "extension" [("name", "VK_MVK_moltenvk")]
        [XElem.mk 3 "require" [] [XElem.mk 4 "command" [("name", "vkOld")] []]])
      rfl rfl rfl (fun _ => rfl)
    exact ⟨merged, hext, hmerge⟩
  · have h3 := c10_registry_merge.2.2
      [XElem.mk 5 "type" [("name", "VkNativeBufferANDROID")] []]
      [XElem.mk 5 "type" [("name", "VkNativeBufferANDROID")] []]
      (XElem.mk 30 "type" [("name", "VkNativeBufferANDROID"), ("structextends", "x")]
        [XElem.mk 31 "member" [] []])
      (EntryKey.str "VkNativeBufferANDROID") 0
      (XElem.mk 5 "type" [("name", "VkNativeBufferANDROID")] [])
      rfl rfl rfl
    exact h3

end Genvk
